import Mathlib

/-!
# Payment-session proxy (`server.js`): a shallow embedding

The server exposes one route, `POST /api/create-payment-session`.  A request
first runs the token middleware (which calls `refreshZohoToken`) and then the
first-registered handler ("variant A").  The second handler registered for the
same path is never reached: the first one always answers and never calls
`next`.  (Its comment announces an API-key based variant, but it sends the same
`Zoho-oauthtoken` header; `ZOHO_API_KEY` is read from the environment and used
nowhere.)

Modelling decisions, all of them about the JavaScript runtime and the two
libraries rather than about `server.js` itself:

* A JavaScript value that came out of `JSON.parse` is a `JVal`; a value that
  may also be `undefined` is an `Option JVal`.
* A Number is `JSNum`: NaN, an infinity, or a signed dyadic rational
  `± m * 2 ^ e` (every finite double is one).
* Strings are Lean strings.
* The result of an outbound `fetch` followed by reading the body as JSON is an
  `Outcome`, supplied from outside.  The message of a failed call is a function
  of the request that was sent, because the fetch library words it from the
  request URL (or from a header value it refuses); the first handler forwards
  that message to the caller as `details`.
* ToString can throw: an object with an own `toString` property has no
  primitive value.
* `String.prototype.toUpperCase`, `Number::toString` on finite numbers and the
  wording of engine `TypeError`s are parameters (`Runtime`): nothing proved
  here depends on them.
* `express.json()` hands the route a parsed JSON object or array (`ReqBody`).
* A body passed to `res.json` / `JSON.stringify` is recorded as the value
  itself; properties whose value is `undefined` are left out, as the
  serialiser does.
-/

namespace OuthServer

/-! ## Values -/

/-- A JavaScript Number: NaN, plus or minus infinity, or `(-1)^neg * m * 2^e`. -/
inductive JSNum where
  | nan
  | inf (neg : Bool)
  | fin (neg : Bool) (m : Nat) (e : Int)
  deriving DecidableEq, Repr

/-- A value produced by `JSON.parse`. An object is its list of properties; the
first binding of a key is the one a property read sees. -/
inductive JVal where
  | null
  | bool (b : Bool)
  | num (x : JSNum)
  | str (s : String)
  | arr (items : List JVal)
  | obj (props : List (String × JVal))

/-- The parts of the JavaScript runtime left abstract. -/
structure Runtime where
  /-- `Number::toString` on a finite number. -/
  numberToString : JSNum → String
  /-- `String.prototype.toUpperCase`. -/
  toUpperCase : String → String
  /-- The message text of a `TypeError` raised by the engine; the argument
  names the expression at fault. -/
  typeErrorMessage : String → String

/-- The Number is `+0` or `-0`. -/
def JSNum.isZero : JSNum → Bool
  | .fin _ m _ => decide (m = 0)
  | _ => false

/-- ToBoolean on a parsed JSON value. -/
def truthy : JVal → Bool
  | .null => false
  | .bool b => b
  | .num .nan => false
  | .num x => !x.isZero
  | .str s => decide (s ≠ "")
  | .arr _ => true
  | .obj _ => true

/-- ToBoolean on a value that may be `undefined`. -/
def truthyOpt : Option JVal → Bool
  | none => false
  | some v => truthy v

/-- The expression `v !== 0`. -/
def strictNeZero : Option JVal → Bool
  | some (.num x) => !x.isZero
  | _ => true

/-- An exception: either a rejection with the message it was given (a failed
`fetch`, an unreadable or non-JSON body), or an engine `TypeError` at the named
expression. -/
inductive Exn where
  | rejected (message : String)
  | typeError (expr : String)
  deriving DecidableEq, Repr

/-- The expression `err.message`. -/
def Exn.message (rt : Runtime) : Exn → String
  | .rejected m => m
  | .typeError expr => rt.typeErrorMessage expr

/-- The own property `key` of a parsed JSON value, if it has one. Only objects
have own properties with the names this program reads. -/
def JVal.field (v : JVal) (key : String) : Option JVal :=
  match v with
  | .obj props => props.lookup key
  | _ => none

/-- The expression `v.key` for the property names this program reads
(`access_token`, `code`, `message`, `payments_session`,
`payments_session_id`): none of them is defined on a built-in prototype, so the
read gives the own property or `undefined`, and throws on `null`. -/
def getProp (v : JVal) (key : String) : Except Exn (Option JVal) :=
  match v with
  | .null => .error (.typeError key)
  | _ => .ok (v.field key)

/-- The expression `v.key` where `v` may be `undefined`. -/
def getPropOpt (v : Option JVal) (key : String) : Except Exn (Option JVal) :=
  match v with
  | none => .error (.typeError key)
  | some w => getProp w key

/-- An object literal as `JSON.stringify` / `res.json` serialises it: a
property whose value is `undefined` is dropped. -/
def jsonObj (props : List (String × Option JVal)) : JVal :=
  .obj (props.filterMap fun p => p.2.map fun v => (p.1, v))

mutual
/-- ToString on a parsed JSON value; `none` when the conversion throws a
`TypeError`. That happens for an object with an own property `toString`: in
parsed JSON the property is never callable, so neither it nor `valueOf` yields
a primitive. Any other object is written `[object Object]`, and an array is
the join of its elements. -/
def toStr (rt : Runtime) : JVal → Option String
  | .null => some "null"
  | .bool b => some (if b then "true" else "false")
  | .num .nan => some "NaN"
  | .num (.inf neg) => some (if neg then "-Infinity" else "Infinity")
  | .num x => some (rt.numberToString x)
  | .str s => some s
  | .arr items => joinStr rt items
  | .obj props => if (props.lookup "toString").isSome then none else some "[object Object]"
termination_by structural v => v
/-- The method `Array.prototype.join` with the default separator: a `null`
element contributes the empty string. -/
def joinStr (rt : Runtime) : List JVal → Option String
  | [] => some ""
  | .null :: [] => some ""
  | x :: [] => toStr rt x
  | .null :: rest => (joinStr rt rest).map fun b => "," ++ b
  | x :: rest =>
    match toStr rt x, joinStr rt rest with
    | some a, some b => some (a ++ "," ++ b)
    | _, _ => none
termination_by structural l => l
end

/-- ToString on a value that may be `undefined`, as in a template literal;
`none` when the conversion throws. -/
def toStrOpt (rt : Runtime) : Option JVal → Option String
  | none => some "undefined"
  | some v => toStr rt v

/-! ## Numbers: `parseFloat` and `Number.prototype.toFixed` -/

/-- The code points of `StrWhiteSpaceChar` (WhiteSpace and LineTerminator). -/
def isStrWhiteSpaceChar (c : Char) : Bool :=
  let n := c.toNat
  n = 0x09 || n = 0x0A || n = 0x0B || n = 0x0C || n = 0x0D || n = 0x20 ||
  n = 0xA0 || n = 0x1680 || (0x2000 ≤ n && n ≤ 0x200A) || n = 0x2028 ||
  n = 0x2029 || n = 0x202F || n = 0x205F || n = 0x3000 || n = 0xFEFF

/-- The list `p` is an initial segment of `cs`. -/
def startsWith : List Char → List Char → Bool
  | [], _ => true
  | _ :: _, [] => false
  | a :: p, c :: cs => a == c && startsWith p cs

/-- The number written by a list of decimal digit characters, continuing
from `acc`. -/
def digitsValue (acc : Nat) (cs : List Char) : Nat :=
  cs.foldl (fun a c => a * 10 + (c.toNat - 48)) acc

/-- The floor of the binary logarithm of `n`, by halving at most `fuel`
times (`fuel = n` is always enough). -/
def log2Fuel : Nat → Nat → Nat
  | 0, _ => 0
  | fuel + 1, n => if 2 ≤ n then log2Fuel fuel (n / 2) + 1 else 0

/-- The quotient `n / d` rounded to the nearest integer, ties to even. -/
def roundHalfEven (n d : Nat) : Nat :=
  let q := n / d
  let r := n % d
  if 2 * r < d then q
  else if d < 2 * r then q + 1
  else if q % 2 = 0 then q else q + 1

/-- The Number value of the decimal `(-1)^neg * d * 10^e10`: the nearest
double, ties to even, a signed zero for `d = 0` and on underflow, an infinity
on overflow. -/
def roundDouble (neg : Bool) (d : Nat) (e10 : Int) : JSNum :=
  if d = 0 then .fin neg 0 0
  else
    let num := if 0 ≤ e10 then d * 10 ^ e10.toNat else d
    let den := if 0 ≤ e10 then 1 else 10 ^ (-e10).toNat
    let b0 : Int := (log2Fuel num num : Int) - (log2Fuel den den : Int)
    let atLeast : Bool :=
      if 0 ≤ b0 then decide (den * 2 ^ b0.toNat ≤ num)
      else decide (den ≤ num * 2 ^ (-b0).toNat)
    let b : Int := if atLeast then b0 else b0 - 1
    let q : Int := max b (-1022) - 52
    let m :=
      if 0 ≤ q then roundHalfEven num (den * 2 ^ q.toNat)
      else roundHalfEven (num * 2 ^ (-q).toNat) den
    if 0 ≤ q ∧ 2 ^ 1024 ≤ m * 2 ^ q.toNat then .inf neg else .fin neg m q

/-- The exponent part of a `StrDecimalLiteral` at the head of `cs`, or `0`
when there is none (`e` or `E`, an optional sign, at least one digit). -/
def exponentPart (cs : List Char) : Int :=
  match cs with
  | c :: t =>
    if c = 'e' ∨ c = 'E' then
      match t with
      | '+' :: u => (digitsValue 0 (u.takeWhile Char.isDigit) : Int)
      | '-' :: u => -(digitsValue 0 (u.takeWhile Char.isDigit) : Int)
      | u => (digitsValue 0 (u.takeWhile Char.isDigit) : Int)
    else 0
  | [] => 0

/-- The value of the longest `StrUnsignedDecimalLiteral` at the head of `cs`
(`Infinity`, or digits with an optional fraction and exponent), NaN when
there is none. -/
def parseUnsigned (neg : Bool) (cs : List Char) : JSNum :=
  if startsWith "Infinity".data cs then .inf neg
  else
    let ip := cs.takeWhile Char.isDigit
    let r1 := cs.dropWhile Char.isDigit
    let fp := match r1 with
      | '.' :: t => t.takeWhile Char.isDigit
      | _ => []
    let r2 := match r1 with
      | '.' :: t => t.dropWhile Char.isDigit
      | _ => r1
    if ip = [] ∧ fp = [] then .nan
    else roundDouble neg (digitsValue 0 (ip ++ fp)) (exponentPart r2 - (fp.length : Int))

/-- The function `parseFloat` applied to a string: leading white space is
skipped, then the longest prefix that is a `StrDecimalLiteral` is read. -/
def parseFloatStr (s : String) : JSNum :=
  match s.data.dropWhile isStrWhiteSpaceChar with
  | '+' :: cs => parseUnsigned false cs
  | '-' :: cs => parseUnsigned true cs
  | cs => parseUnsigned false cs

/-- The function `parseFloat`: its argument is converted with ToString first;
`none` when that conversion throws. -/
def parseFloat (rt : Runtime) (v : Option JVal) : Option JSNum :=
  (toStrOpt rt v).map parseFloatStr

/-- The decimal digit character for `d < 10`. -/
def digitChar (d : Nat) : Char := Char.ofNat (48 + d)

/-- The decimal digits of `n`, most significant first, by dividing at most
`fuel` times; `0` is written `0`. -/
def decDigitsFuel : Nat → Nat → List Char
  | 0, _ => []
  | fuel + 1, n =>
    if n < 10 then [digitChar n] else decDigitsFuel fuel (n / 10) ++ [digitChar (n % 10)]

/-- The decimal representation of `n`. -/
def decDigits (n : Nat) : List Char := decDigitsFuel (n + 1) n

/-- The integer `n` for which `n / 10^f - m * 2^e` is as close to zero as
possible, the larger one on a tie: `floor (m * 2^e * 10^f + 1/2)`. -/
def scaledRound (m : Nat) (e : Int) (f : Nat) : Nat :=
  if 0 ≤ e then m * 2 ^ e.toNat * 10 ^ f
  else (2 * m * 10 ^ f + 2 ^ (-e).toNat) / (2 * 2 ^ (-e).toNat)

/-- The test `10^21 ≤ m * 2^e`. -/
def atLeast1e21 (m : Nat) (e : Int) : Bool :=
  if 0 ≤ e then decide (10 ^ 21 ≤ m * 2 ^ e.toNat)
  else decide (10 ^ 21 * 2 ^ (-e).toNat ≤ m)

/-- The digits of `n` with a decimal point before the last `f` of them, padded
with zeros on the left to at least `f + 1` digits (steps 11.b and 11.c of
`Number.prototype.toFixed`). -/
def fixedDigits (n f : Nat) : List Char :=
  let m := decDigits n
  let m := if m.length ≤ f then List.replicate (f + 1 - m.length) '0' ++ m else m
  if f = 0 then m
  else m.take (m.length - f) ++ '.' :: m.drop (m.length - f)

/-- The method `Number.prototype.toFixed` with `0 ≤ f ≤ 100`. -/
def toFixed (rt : Runtime) (x : JSNum) (f : Nat) : String :=
  match x with
  | .nan => "NaN"
  | .inf neg => if neg then "-Infinity" else "Infinity"
  | .fin neg m e =>
    let s := if neg && decide (m ≠ 0) then "-" else ""
    if atLeast1e21 m e then s ++ rt.numberToString (.fin false m e)
    else s ++ String.mk (fixedDigits (scaledRound m e f) f)

/-! ## The server -/

/-- The environment variables `server.js` reads at start-up; an unset variable
is `undefined`. -/
structure Env where
  ZOHO_ACCOUNT_ID : Option String
  ZOHO_CLIENT_ID : Option String
  ZOHO_CLIENT_SECRET : Option String
  ZOHO_REFRESH_TOKEN : Option String
  ZOHO_API_KEY : Option String

/-- String conversion of an environment value; `undefined` becomes the text
`undefined`. -/
def envStr : Option String → String
  | none => "undefined"
  | some s => s

/-- An outbound `fetch`: the call to the token endpoint with its form fields,
or the call to the session endpoint with its `Authorization` header and the
object given to `JSON.stringify`. -/
inductive Outbound where
  | tokenRequest (url : String) (form : List (String × String))
  | sessionRequest (url : String) (authorization : String) (payload : JVal)

/-- What an outbound call comes back with: the call or the reading of its body
rejects (`failed`), the body is not JSON (`nonJson`), or the body is the JSON
text of `data`. A rejection's message is worded by the fetch library from the
request it was given (its URL, or a header value it refuses), so `failed`
carries the message as a function of the request that was sent; the message
of a parse error depends on the body received alone. -/
inductive Outcome where
  | failed (describe : Outbound → String)
  | nonJson (message : String)
  | json (data : JVal)

/-- A response written to the caller: `res.status(status).json(body)`. -/
structure Response where
  status : Nat
  body : JVal

/-- The value of `req.body` left by `express.json()`, which accepts a JSON
object or array only and leaves an empty object when there is no JSON body. -/
inductive ReqBody where
  | object (props : List (String × JVal))
  | array (items : List JVal)

/-- A property of `req.body` picked out by the destructuring pattern; an array
has none of the names the handler asks for. -/
def ReqBody.get (b : ReqBody) (key : String) : Option JVal :=
  match b with
  | .object props => props.lookup key
  | .array _ => none

/-- The mutable state of the process and the trace of one request: the
variable `ZOHO_OAUTH_TOKEN`, the outbound calls issued so far (oldest first)
and the responses written to the caller so far. -/
structure World where
  ZOHO_OAUTH_TOKEN : Option JVal
  calls : List Outbound
  sent : List Response

/-- The call `fetch(..., ...)` recorded in the trace. -/
def World.fetch (w : World) (c : Outbound) : World :=
  { w with calls := w.calls ++ [c] }

/-- The call `res.status(status).json(body)` recorded in the trace. -/
def World.send (w : World) (status : Nat) (body : JVal) : World :=
  { w with sent := w.sent ++ [⟨status, body⟩] }

/-- The request `refreshZohoToken` sends to the token endpoint. -/
def tokenRequest (env : Env) : Outbound :=
  .tokenRequest "https://accounts.zoho.in/oauth/v2/token"
    [("refresh_token", envStr env.ZOHO_REFRESH_TOKEN),
     ("client_id", envStr env.ZOHO_CLIENT_ID),
     ("client_secret", envStr env.ZOHO_CLIENT_SECRET),
     ("grant_type", "refresh_token")]

/-- The `try` block of `refreshZohoToken`, after the `fetch` of `req` has been
issued: the returned boolean and the new value of `ZOHO_OAUTH_TOKEN`. -/
def refreshTry (req : Outbound) (tok : Option JVal) (out : Outcome) :
    Except Exn (Bool × Option JVal) :=
  match out with
  | .failed describe => .error (.rejected (describe req))
  | .nonJson m => .error (.rejected m)
  | .json data =>
    match getProp data "access_token" with
    | .error e => .error e
    | .ok access_token =>
      if truthyOpt access_token then .ok (true, access_token)
      else .ok (false, tok)

/-- The function `refreshZohoToken`: whatever the `try` block throws is caught
and turned into `false`. -/
def refreshZohoToken (env : Env) (out : Outcome) (w : World) : Bool × World :=
  let w1 := w.fetch (tokenRequest env)
  match refreshTry (tokenRequest env) w1.ZOHO_OAUTH_TOKEN out with
  | .ok (refreshed, tok) => (refreshed, { w1 with ZOHO_OAUTH_TOKEN := tok })
  | .error _ => (false, w1)

/-- The middleware mounted on `/api/create-payment-session`: the boolean tells
whether `next()` was called. Its `catch` branch is not modelled, since
`refreshZohoToken` never throws. -/
def tokenMiddleware (env : Env) (out : Outcome) (w : World) : Bool × World :=
  let r := refreshZohoToken env out w
  if !r.1 then
    (false, r.2.send 401 (jsonObj [("error", some (.str "Payment authentication failed - check server logs"))]))
  else (true, r.2)

/-- The entry of `meta_data` with the given key. -/
def metaEntry (key : String) (value : Option JVal) : JVal :=
  jsonObj [("key", some (.str key)), ("value", value)]

/-- The object `body` built by the first handler, in the form in which
`JSON.stringify` sends it. `parseFloat(amount)` throws when `amount` cannot be
converted to a string, and `currency.toUpperCase()` throws unless `currency`
is a string. -/
def buildBody (rt : Runtime)
    (amount currency description invoice_number reference_number customer_name : Option JVal) :
    Except Exn JVal :=
  match parseFloat rt amount with
  | none => .error (.typeError "amount")
  | some x =>
    let amt := toFixed rt x 2
    match currency with
    | some (.str c) =>
      let base : List (String × Option JVal) :=
        [("amount", some (.str amt)), ("currency", some (.str (rt.toUpperCase c))),
         ("description", description), ("invoice_number", invoice_number)]
      if truthyOpt reference_number then
        let meta_data : List JVal :=
          if truthyOpt customer_name then
            [metaEntry "reference" reference_number, metaEntry "customer" customer_name]
          else [metaEntry "reference" reference_number]
        .ok (jsonObj (base ++ [("meta_data", some (.arr meta_data))]))
      else .ok (jsonObj base)
    | _ => .error (.typeError "currency.toUpperCase")

/-- The request the first handler sends to the session endpoint; `token` is
`ZOHO_OAUTH_TOKEN` converted to a string. -/
def sessionRequest (env : Env) (token : String) (body : JVal) : Outbound :=
  .sessionRequest
    ("https://payments.zoho.in/api/v1/paymentsessions?account_id=" ++ envStr env.ZOHO_ACCOUNT_ID)
    ("Zoho-oauthtoken " ++ token) body

/-- The first handler from `JSON.parse(rawResponse)` on: the answer for the
parsed provider response `data`. -/
def mapProviderResponse (data : JVal) (w : World) : Except Exn World :=
  match getProp data "code" with
  | .error e => .error e
  | .ok code =>
    if strictNeZero code then
      match getProp data "message" with
      | .error e => .error e
      | .ok message =>
        let error := if truthyOpt message then message
          else some (.str "Payment session creation failed")
        .ok (w.send 400 (jsonObj [("error", error), ("details", some data)]))
    else
      match getProp data "payments_session" with
      | .error e => .error e
      | .ok payments_session =>
        match getPropOpt payments_session "payments_session_id" with
        | .error e => .error e
        | .ok payments_session_id =>
          .ok (w.send 200 (jsonObj [("payments_session_id", payments_session_id)]))

/-- The `try` block of the first handler: the world it ends in and, if it
threw, the exception. -/
def handlerTry (rt : Runtime) (env : Env) (body : ReqBody) (out : Outcome) (w : World) :
    World × Option Exn :=
  let amount := body.get "amount"
  let currency := body.get "currency"
  let description := body.get "description"
  let invoice_number := body.get "invoice_number"
  let reference_number := body.get "reference_number"
  let customer_name := body.get "customer_name"
  if !truthyOpt amount || !truthyOpt currency || !truthyOpt description then
    (w.send 400 (jsonObj [("error",
      some (.str "Missing required fields: amount, currency, or description"))]), none)
  else
    match buildBody rt amount currency description invoice_number reference_number
        customer_name with
    | .error e => (w, some e)
    | .ok payload =>
      match toStrOpt rt w.ZOHO_OAUTH_TOKEN with
      | none => (w, some (.typeError "ZOHO_OAUTH_TOKEN"))
      | some token =>
        let w1 := w.fetch (sessionRequest env token payload)
        match out with
        | .failed describe =>
          (w1, some (.rejected (describe (sessionRequest env token payload))))
        | .nonJson m => (w1, some (.rejected m))
        | .json data =>
          match mapProviderResponse data w1 with
          | .error e => (w1, some e)
          | .ok w2 => (w2, none)

/-- The first handler registered for `POST /api/create-payment-session`: the
`try` block, and the `catch` block that answers 500. -/
def handlerA (rt : Runtime) (env : Env) (body : ReqBody) (out : Outcome) (w : World) : World :=
  match handlerTry rt env body out w with
  | (w1, none) => w1
  | (w1, some err) =>
    w1.send 500 (jsonObj [("error", some (.str "Internal server error")),
      ("details", some (.str (err.message rt)))])

/-- One request to `POST /api/create-payment-session`: the middleware, then
the first handler if the middleware called `next()`. `refreshOut` and
`sessionOut` are what the token endpoint and the session endpoint come back
with if they are called. -/
def route (rt : Runtime) (env : Env) (body : ReqBody) (refreshOut sessionOut : Outcome)
    (w : World) : World :=
  let r := tokenMiddleware env refreshOut w
  if r.1 then handlerA rt env body sessionOut r.2 else r.2

/-- The state in which a request arrives: the stored token, no call issued and
no response written yet. -/
def World.start (tok : Option JVal) : World :=
  { ZOHO_OAUTH_TOKEN := tok, calls := [], sent := [] }

/-! ## Worked inputs -/

/-- A runtime for the worked examples: `toUpperCase` on ASCII text. The other
two fields are stand-ins; no example inspects a value they produce. -/
def asciiRuntime : Runtime where
  numberToString := fun _ => "0"
  toUpperCase := fun s => String.mk (s.data.map Char.toUpper)
  typeErrorMessage := fun expr => "TypeError: " ++ expr

/-- An environment for the worked examples. -/
def sampleEnv : Env where
  ZOHO_ACCOUNT_ID := some "60001"
  ZOHO_CLIENT_ID := some "client-id"
  ZOHO_CLIENT_SECRET := some "client-secret"
  ZOHO_REFRESH_TOKEN := some "refresh-token"
  ZOHO_API_KEY := none

/-- An environment that differs from `sampleEnv` in the refresh token, the
client id and the client secret, and has the same account id. -/
def rotatedEnv : Env where
  ZOHO_ACCOUNT_ID := some "60001"
  ZOHO_CLIENT_ID := some "other-client-id"
  ZOHO_CLIENT_SECRET := some "other-client-secret"
  ZOHO_REFRESH_TOKEN := some "other-refresh-token"
  ZOHO_API_KEY := some "api-key"

/-- An environment that differs from `sampleEnv` in the account id alone. -/
def otherAccountEnv : Env where
  ZOHO_ACCOUNT_ID := some "999"
  ZOHO_CLIENT_ID := some "client-id"
  ZOHO_CLIENT_SECRET := some "client-secret"
  ZOHO_REFRESH_TOKEN := some "refresh-token"
  ZOHO_API_KEY := none

/-- The URL an outbound call goes to. -/
def Outbound.url : Outbound → String
  | .tokenRequest url _ => url
  | .sessionRequest url _ _ => url

/-- The message of the `FetchError` with which `node-fetch` rejects when the
request cannot be completed: `request to <url> failed, reason: <reason>`. -/
def fetchErrorMessage (reason : String) (req : Outbound) : String :=
  "request to " ++ req.url ++ " failed, reason: " ++ reason

/-- The text of the `details` field of a response body, empty when there is
none. -/
def detailsText (r : Response) : String :=
  match r.body.field "details" with
  | some (.str s) => s
  | _ => ""

/-- A token-endpoint answer that carries an access token. -/
def tokenGranted : Outcome :=
  .json (.obj [("access_token", .str "fresh-token")])

/-- The provider answer `{code: 0, payments_session: {payments_session_id: s}}`,
with `zero` the Number `0`. -/
def sessionCreated (zero : JSNum) (s : String) : JVal :=
  .obj [("code", .num zero), ("payments_session", .obj [("payments_session_id", .str s)])]

/-- The request body `{amount: "10", currency: "inr", description: "order 7"}`. -/
def plainOrder : ReqBody :=
  .object [("amount", .str "10"), ("currency", .str "inr"), ("description", .str "order 7")]

/-- A request body whose currency is the ISO 4217 numeric code instead of the
letter code: `{amount: "10", currency: 356, description: "order 7"}`. -/
def numericCurrencyOrder : ReqBody :=
  .object [("amount", .str "10"), ("currency", .num (.fin false 356 0)),
    ("description", .str "order 7")]

/-- The provider answer `{code: 1, message: "invalid amount"}`. -/
def invalidAmount : JVal :=
  .obj [("code", .num (.fin false 1 0)), ("message", .str "invalid amount")]

/-- The provider answer `{code: 0, payments_session: {payments_session_id: 42}}`,
whose session identifier is a number. -/
def numericSessionId : JVal :=
  .obj [("code", .num (.fin false 0 0)),
    ("payments_session", .obj [("payments_session_id", .num (.fin false 42 0))])]

/-- The provider answer `{code: 0, payments_session: {}}`, which has no session
identifier. -/
def emptySession : JVal :=
  .obj [("code", .num (.fin false 0 0)), ("payments_session", .obj [])]

/-- The request body `{amount: "10", currency: "inr", description: "order 7",
customer_name: "Bob"}`: a customer name and no reference number. -/
def namedOrder : ReqBody :=
  .object [("amount", .str "10"), ("currency", .str "inr"), ("description", .str "order 7"),
    ("customer_name", .str "Bob")]

/-- The request body `{amount: "10", currency: "inr", description: "order 7",
reference_number: "R-1", customer_name: "Bob"}`. -/
def referencedOrder : ReqBody :=
  .object [("amount", .str "10"), ("currency", .str "inr"), ("description", .str "order 7"),
    ("reference_number", .str "R-1"), ("customer_name", .str "Bob")]

/-- The request body `{amount: "abc", currency: "inr", description: "order 7"}`,
whose amount is not a number. -/
def wordAmountOrder : ReqBody :=
  .object [("amount", .str "abc"), ("currency", .str "inr"), ("description", .str "order 7")]

/-! ## Lemmas on the control flow -/

theorem getProp_of_ne_null (v : JVal) (key : String) (h : v ≠ .null) :
    getProp v key = .ok (v.field key) := by
  cases v <;> first | rfl | exact absurd rfl h

theorem field_ne_null (v : JVal) (key : String) (x : JVal) (h : v.field key = some x) :
    v ≠ .null := by
  intro hv; subst hv; simp [JVal.field] at h

theorem refresh_trace (env : Env) (out : Outcome) (w : World) :
    (refreshZohoToken env out w).2.calls = w.calls ++ [tokenRequest env] ∧
    (refreshZohoToken env out w).2.sent = w.sent := by
  unfold refreshZohoToken
  simp only [World.fetch]
  split <;> simp

theorem refreshTry_true_iff (req : Outbound) (tok : Option JVal) (out : Outcome)
    (t : Option JVal) :
    refreshTry req tok out = .ok (true, t) ↔
      ∃ data v, out = .json data ∧ data.field "access_token" = some v ∧ truthy v = true ∧
        t = some v := by
  unfold refreshTry
  cases out with
  | failed m => simp
  | nonJson m => simp
  | json data =>
    simp only []
    by_cases hd : data = .null
    · subst hd; simp [getProp, JVal.field]
    · rw [getProp_of_ne_null data _ hd]
      simp only []
      constructor
      · intro h
        cases hf : data.field "access_token" with
        | none => rw [hf] at h; simp [truthyOpt] at h
        | some v =>
          rw [hf] at h
          by_cases hv : truthy v = true
          · simp only [truthyOpt, hv, if_true] at h
            injection h with h; injection h with _ h2
            exact ⟨data, v, rfl, hf, hv, h2.symm⟩
          · simp [truthyOpt, hv] at h
      · rintro ⟨d, v, hd2, hf, hv, ht⟩
        injection hd2 with hd2
        subst hd2
        rw [hf, ht]
        simp [truthyOpt, hv]

theorem refreshTry_false_token (req : Outbound) (tok : Option JVal) (out : Outcome)
    (t : Option JVal) (h : refreshTry req tok out = .ok (false, t)) : t = tok := by
  revert h
  unfold refreshTry
  cases out with
  | failed m => simp
  | nonJson m => simp
  | json data =>
    simp only []
    cases getProp data "access_token" with
    | error e => simp
    | ok a =>
      simp only []
      by_cases ha : truthyOpt a = true
      · simp [ha]
      · simp only [ha]; intro h; injection h with h; injection h with _ h2; exact h2.symm

theorem refresh_true_iff (env : Env) (out : Outcome) (w : World) :
    (refreshZohoToken env out w).1 = true ↔
      ∃ data v, out = .json data ∧ data.field "access_token" = some v ∧ truthy v = true := by
  unfold refreshZohoToken
  simp only [World.fetch]
  cases h : refreshTry (tokenRequest env) w.ZOHO_OAUTH_TOKEN out with
  | error e =>
    simp only [Bool.false_eq_true, false_iff]
    rintro ⟨data, v, h1, h2, h3⟩
    have := (refreshTry_true_iff (tokenRequest env) w.ZOHO_OAUTH_TOKEN out (some v)).2 ⟨data, v, h1, h2, h3, rfl⟩
    rw [h] at this; cases this
  | ok p =>
    obtain ⟨b, t⟩ := p
    cases b with
    | true =>
      simp only [true_iff]
      obtain ⟨data, v, h1, h2, h3, _⟩ := (refreshTry_true_iff _ _ _ _).1 h
      exact ⟨data, v, h1, h2, h3⟩
    | false =>
      simp only [Bool.false_eq_true, false_iff]
      rintro ⟨data, v, h1, h2, h3⟩
      have := (refreshTry_true_iff (tokenRequest env) w.ZOHO_OAUTH_TOKEN out (some v)).2 ⟨data, v, h1, h2, h3, rfl⟩
      rw [h] at this; cases this

theorem refresh_true_token (env : Env) (w : World) (data v : JVal)
    (hf : data.field "access_token" = some v) (hv : truthy v = true) :
    (refreshZohoToken env (.json data) w).2.ZOHO_OAUTH_TOKEN = some v := by
  have h := (refreshTry_true_iff (tokenRequest env) w.ZOHO_OAUTH_TOKEN (.json data) (some v)).2
    ⟨data, v, rfl, hf, hv, rfl⟩
  unfold refreshZohoToken
  simp only [World.fetch]
  rw [h]

theorem refresh_false_token (env : Env) (out : Outcome) (w : World)
    (h : (refreshZohoToken env out w).1 = false) :
    (refreshZohoToken env out w).2.ZOHO_OAUTH_TOKEN = w.ZOHO_OAUTH_TOKEN := by
  revert h
  unfold refreshZohoToken
  simp only [World.fetch]
  cases h : refreshTry (tokenRequest env) w.ZOHO_OAUTH_TOKEN out with
  | error e => simp
  | ok p =>
    obtain ⟨b, t⟩ := p
    cases b with
    | true => simp
    | false =>
      intro _
      simp only []
      exact refreshTry_false_token _ _ _ _ h

theorem refresh_ok_independent (env env2 : Env) (out : Outcome) (w w2 : World) :
    (refreshZohoToken env out w).1 = (refreshZohoToken env2 out w2).1 := by
  cases h : (refreshZohoToken env2 out w2).1 with
  | true => exact (refresh_true_iff env out w).2 ((refresh_true_iff env2 out w2).1 h)
  | false =>
    cases h1 : (refreshZohoToken env out w).1 with
    | false => rfl
    | true =>
      have := (refresh_true_iff env2 out w2).2 ((refresh_true_iff env out w).1 h1)
      rw [h] at this; cases this

theorem mapProviderResponse_nonzero (data : JVal) (w : World) (hn : data ≠ .null)
    (hc : strictNeZero (data.field "code") = true) :
    mapProviderResponse data w = .ok (w.send 400 (jsonObj
      [("error", if truthyOpt (data.field "message") then data.field "message"
          else some (.str "Payment session creation failed")),
       ("details", some data)])) := by
  unfold mapProviderResponse
  simp [getProp_of_ne_null data _ hn, hc]

theorem mapProviderResponse_zero (data : JVal) (w : World) (hn : data ≠ .null)
    (hc : strictNeZero (data.field "code") = false) :
    mapProviderResponse data w =
      match getPropOpt (data.field "payments_session") "payments_session_id" with
      | .error e => .error e
      | .ok id => .ok (w.send 200 (jsonObj [("payments_session_id", id)])) := by
  unfold mapProviderResponse
  simp [getProp_of_ne_null data _ hn, hc]

/-- The provider answer decides the handler's reply on its own: either an
exception, or one response whose status and body do not depend on the world. -/
theorem mapProviderResponse_uniform (data : JVal) :
    (∃ e, ∀ w, mapProviderResponse data w = .error e) ∨
    (∃ err, ∀ w, mapProviderResponse data w =
      .ok (w.send 400 (jsonObj [("error", some err), ("details", some data)]))) ∨
    (∃ z ps, data.field "code" = some (.num z) ∧ z.isZero = true ∧
      data.field "payments_session" = some ps ∧ ps ≠ .null ∧
      ∀ w, mapProviderResponse data w =
        .ok (w.send 200 (jsonObj [("payments_session_id", ps.field "payments_session_id")]))) := by
  by_cases hn : data = .null
  · subst hn; exact Or.inl ⟨.typeError "code", fun w => rfl⟩
  · by_cases hc : strictNeZero (data.field "code") = true
    · refine Or.inr (Or.inl ?_)
      by_cases hm : truthyOpt (data.field "message") = true
      · cases hmv : data.field "message" with
        | none => rw [hmv] at hm; simp [truthyOpt] at hm
        | some mv =>
          refine ⟨mv, fun w => ?_⟩
          rw [mapProviderResponse_nonzero data w hn hc, hmv]
          rw [hmv] at hm
          simp [hm]
      · refine ⟨.str "Payment session creation failed", fun w => ?_⟩
        rw [mapProviderResponse_nonzero data w hn hc]
        simp [hm]
    · have hc2 : strictNeZero (data.field "code") = false := by simpa using hc
      cases hcode : data.field "code" with
      | none => rw [hcode] at hc2; simp [strictNeZero] at hc2
      | some cv =>
        rw [hcode] at hc2
        cases cv with
        | num z =>
          have hz : z.isZero = true := by simpa [strictNeZero] using hc2
          cases hps : data.field "payments_session" with
          | none =>
            refine Or.inl ⟨.typeError "payments_session_id", fun w => ?_⟩
            rw [mapProviderResponse_zero data w hn (by rw [hcode]; exact hc2), hps]
            rfl
          | some ps =>
            by_cases hpn : ps = .null
            · subst hpn
              refine Or.inl ⟨.typeError "payments_session_id", fun w => ?_⟩
              rw [mapProviderResponse_zero data w hn (by rw [hcode]; exact hc2), hps]
              rfl
            · refine Or.inr (Or.inr ⟨z, ps, rfl, hz, rfl, hpn, fun w => ?_⟩)
              rw [mapProviderResponse_zero data w hn (by rw [hcode]; exact hc2), hps]
              simp [getPropOpt, getProp_of_ne_null ps _ hpn]
        | null => simp [strictNeZero] at hc2
        | bool b => simp [strictNeZero] at hc2
        | str s => simp [strictNeZero] at hc2
        | arr a => simp [strictNeZero] at hc2
        | obj o => simp [strictNeZero] at hc2

theorem truthy_string_currency (c : String) (hc : c ≠ "") :
    truthyOpt (some (.str c)) = true := by
  simp [truthyOpt, truthy, hc]

theorem handlerA_missing (rt : Runtime) (env : Env) (body : ReqBody) (out : Outcome) (w : World)
    (h : truthyOpt (body.get "amount") = false ∨ truthyOpt (body.get "currency") = false ∨
      truthyOpt (body.get "description") = false) :
    handlerA rt env body out w = w.send 400 (jsonObj [("error",
      some (.str "Missing required fields: amount, currency, or description"))]) := by
  unfold handlerA handlerTry
  have hv : (!truthyOpt (body.get "amount") || !truthyOpt (body.get "currency") ||
      !truthyOpt (body.get "description")) = true := by
    rcases h with h | h | h <;> simp [h]
  simp only [hv, if_true]

theorem handlerA_not_built (rt : Runtime) (env : Env) (body : ReqBody) (out : Outcome) (w : World)
    (e : Exn)
    (hA : truthyOpt (body.get "amount") = true) (hC : truthyOpt (body.get "currency") = true)
    (hD : truthyOpt (body.get "description") = true)
    (hb : buildBody rt (body.get "amount") (body.get "currency") (body.get "description")
      (body.get "invoice_number") (body.get "reference_number") (body.get "customer_name")
      = .error e) :
    handlerA rt env body out w = w.send 500 (jsonObj
      [("error", some (.str "Internal server error")),
       ("details", some (.str (e.message rt)))]) := by
  unfold handlerA handlerTry
  simp only [hA, hC, hD, hb]
  rfl

theorem handlerA_no_token (rt : Runtime) (env : Env) (body : ReqBody) (out : Outcome) (w : World)
    (p : JVal)
    (hA : truthyOpt (body.get "amount") = true) (hC : truthyOpt (body.get "currency") = true)
    (hD : truthyOpt (body.get "description") = true)
    (hb : buildBody rt (body.get "amount") (body.get "currency") (body.get "description")
      (body.get "invoice_number") (body.get "reference_number") (body.get "customer_name")
      = .ok p)
    (ht : toStrOpt rt w.ZOHO_OAUTH_TOKEN = none) :
    handlerA rt env body out w = w.send 500 (jsonObj
      [("error", some (.str "Internal server error")),
       ("details", some (.str ((Exn.typeError "ZOHO_OAUTH_TOKEN").message rt)))]) := by
  unfold handlerA handlerTry
  simp only [hA, hC, hD, hb, ht]
  rfl

theorem handlerA_built (rt : Runtime) (env : Env) (body : ReqBody) (out : Outcome) (w : World)
    (p : JVal) (token : String)
    (hA : truthyOpt (body.get "amount") = true) (hC : truthyOpt (body.get "currency") = true)
    (hD : truthyOpt (body.get "description") = true)
    (hb : buildBody rt (body.get "amount") (body.get "currency") (body.get "description")
      (body.get "invoice_number") (body.get "reference_number") (body.get "customer_name")
      = .ok p)
    (ht : toStrOpt rt w.ZOHO_OAUTH_TOKEN = some token) :
    handlerA rt env body out w =
      match out with
      | .failed m => (w.fetch (sessionRequest env token p)).send 500 (jsonObj
          [("error", some (.str "Internal server error")),
           ("details", some (.str (m (sessionRequest env token p))))])
      | .nonJson m => (w.fetch (sessionRequest env token p)).send 500 (jsonObj
          [("error", some (.str "Internal server error")), ("details", some (.str m))])
      | .json data =>
        match mapProviderResponse data (w.fetch (sessionRequest env token p)) with
        | .error e => (w.fetch (sessionRequest env token p)).send 500 (jsonObj
            [("error", some (.str "Internal server error")),
             ("details", some (.str (e.message rt)))])
        | .ok w2 => w2 := by
  unfold handlerA handlerTry
  simp only [hA, hC, hD, hb, ht]
  cases out with
  | failed m => rfl
  | nonJson m => rfl
  | json data =>
    simp only []
    cases mapProviderResponse data (w.fetch (sessionRequest env token p)) <;> rfl

theorem buildBody_of_string (rt : Runtime) (c : String)
    (amount description invoice_number reference_number customer_name : Option JVal)
    (hs : (toStrOpt rt amount).isSome = true) :
    ∃ p, buildBody rt amount (some (.str c)) description invoice_number reference_number
      customer_name = .ok p := by
  obtain ⟨sa, hsa⟩ := Option.isSome_iff_exists.1 hs
  unfold buildBody parseFloat
  simp only [hsa, Option.map_some']
  split_ifs <;> exact ⟨_, rfl⟩

/-- The reply of the first handler is one response that depends on the
runtime, the request body, the stored token, the account id and the session
outcome only; the
handler appends it to what was sent, appends at most its own session call to
the calls, and leaves `ZOHO_OAUTH_TOKEN` alone. -/
theorem handlerA_uniform (rt : Runtime) (body : ReqBody) (out : Outcome) (tok : Option JVal)
    (acct : Option String) :
    ∃ r : Response,
      (r.status = 200 ∨ r.status = 400 ∨ r.status = 500) ∧
      (r.status ≠ 200 → ∃ e, r.body.field "error" = some e) ∧
      (r.status = 200 → ∃ data z ps, out = .json data ∧ data.field "code" = some (.num z) ∧
        z.isZero = true ∧ data.field "payments_session" = some ps ∧ ps ≠ .null ∧
        r.body = jsonObj [("payments_session_id", ps.field "payments_session_id")]) ∧
      ∀ (env : Env) (w : World), w.ZOHO_OAUTH_TOKEN = tok → env.ZOHO_ACCOUNT_ID = acct →
          ∃ cs : List Outbound,
        handlerA rt env body out w =
          { ZOHO_OAUTH_TOKEN := w.ZOHO_OAUTH_TOKEN, calls := w.calls ++ cs,
            sent := w.sent ++ [r] } ∧
        (cs = [] ∨ ∃ token p, cs = [sessionRequest env token p]) ∧
        (cs ≠ [] → ((∃ m, out = .failed m) ∨ (∃ m, out = .nonJson m)) →
          r.status = 500 ∧ r.body.field "error" = some (.str "Internal server error")) := by
  by_cases hv : truthyOpt (body.get "amount") = true ∧ truthyOpt (body.get "currency") = true ∧
      truthyOpt (body.get "description") = true
  · obtain ⟨hA, hC, hD⟩ := hv
    cases hb : buildBody rt (body.get "amount") (body.get "currency") (body.get "description")
      (body.get "invoice_number") (body.get "reference_number") (body.get "customer_name") with
    | error e =>
      refine ⟨⟨500, jsonObj [("error", some (.str "Internal server error")),
        ("details", some (.str (e.message rt)))]⟩, by simp, ?_, by simp,
        fun env w _ _ => ⟨[], ?_, Or.inl rfl, by simp⟩⟩
      · intro _; exact ⟨_, rfl⟩
      · rw [handlerA_not_built rt env body out w e hA hC hD hb]
        simp [World.send]
    | ok p =>
      cases htk : toStrOpt rt tok with
      | none =>
        refine ⟨⟨500, jsonObj [("error", some (.str "Internal server error")),
          ("details", some (.str ((Exn.typeError "ZOHO_OAUTH_TOKEN").message rt)))]⟩,
          by simp, ?_, by simp, fun env w hw _ => ⟨[], ?_, Or.inl rfl, by simp⟩⟩
        · intro _; exact ⟨_, rfl⟩
        · rw [handlerA_no_token rt env body out w p hA hC hD hb (by rw [hw]; exact htk)]
          simp [World.send]
      | some token =>
        cases out with
        | failed m =>
          refine ⟨⟨500, jsonObj [("error", some (.str "Internal server error")),
            ("details", some (.str (m (sessionRequest ⟨acct, none, none, none, none⟩ token p))))]⟩,
            by simp, ?_, by simp,
            fun env w hw ha => ⟨_, ?_, Or.inr ⟨token, p, rfl⟩, fun _ _ => ⟨rfl, rfl⟩⟩⟩
          · intro _; exact ⟨_, rfl⟩
          · rw [handlerA_built rt env body _ w p token hA hC hD hb (by rw [hw]; exact htk)]
            simp [World.send, World.fetch, sessionRequest, ha]
        | nonJson m =>
          refine ⟨⟨500, jsonObj [("error", some (.str "Internal server error")),
            ("details", some (.str m))]⟩, by simp, ?_, by simp,
            fun env w hw _ => ⟨_, ?_, Or.inr ⟨token, p, rfl⟩, fun _ _ => ⟨rfl, rfl⟩⟩⟩
          · intro _; exact ⟨_, rfl⟩
          · rw [handlerA_built rt env body _ w p token hA hC hD hb (by rw [hw]; exact htk)]
            simp [World.send, World.fetch]
        | json data =>
          rcases mapProviderResponse_uniform data with
            ⟨e, he⟩ | ⟨err, he⟩ | ⟨z, ps, h1, h2, h3, h4, he⟩
          · refine ⟨⟨500, jsonObj [("error", some (.str "Internal server error")),
              ("details", some (.str (e.message rt)))]⟩, by simp, ?_, by simp,
              fun env w hw _ => ⟨_, ?_, Or.inr ⟨token, p, rfl⟩, fun _ _ => ⟨rfl, rfl⟩⟩⟩
            · intro _; exact ⟨_, rfl⟩
            · rw [handlerA_built rt env body _ w p token hA hC hD hb (by rw [hw]; exact htk)]
              simp only [he]
              simp [World.send, World.fetch]
          · refine ⟨⟨400, jsonObj [("error", some err), ("details", some data)]⟩, by simp, ?_,
              by simp, fun env w hw _ => ⟨_, ?_, Or.inr ⟨token, p, rfl⟩, ?_⟩⟩
            · intro _; exact ⟨err, by simp [jsonObj, JVal.field, List.lookup]⟩
            · rw [handlerA_built rt env body _ w p token hA hC hD hb (by rw [hw]; exact htk)]
              simp only [he]
              simp [World.send, World.fetch]
            · rintro _ (⟨m, hm⟩ | ⟨m, hm⟩) <;> cases hm
          · refine ⟨⟨200, jsonObj [("payments_session_id", ps.field "payments_session_id")]⟩,
              by simp, by simp, fun _ => ⟨data, z, ps, rfl, h1, h2, h3, h4, rfl⟩,
              fun env w hw _ => ⟨_, ?_, Or.inr ⟨token, p, rfl⟩, ?_⟩⟩
            · rw [handlerA_built rt env body _ w p token hA hC hD hb (by rw [hw]; exact htk)]
              simp only [he]
              simp [World.send, World.fetch]
            · rintro _ (⟨m, hm⟩ | ⟨m, hm⟩) <;> cases hm
  · refine ⟨⟨400, jsonObj [("error",
      some (.str "Missing required fields: amount, currency, or description"))]⟩,
      by simp, ?_, by simp, fun env w _ _ => ⟨[], ?_, Or.inl rfl, by simp⟩⟩
    · intro _; exact ⟨_, rfl⟩
    · rw [handlerA_missing rt env body out w]
      · simp [World.send]
      · by_contra hcon
        push_neg at hcon
        apply hv
        simpa using hcon

theorem route_of_refresh_false (rt : Runtime) (env : Env) (body : ReqBody)
    (refreshOut sessionOut : Outcome) (w : World)
    (h : (refreshZohoToken env refreshOut w).1 = false) :
    route rt env body refreshOut sessionOut w =
      (refreshZohoToken env refreshOut w).2.send 401
        (jsonObj [("error", some (.str "Payment authentication failed - check server logs"))]) := by
  simp [route, tokenMiddleware, h]

theorem route_of_refresh_true (rt : Runtime) (env : Env) (body : ReqBody)
    (refreshOut sessionOut : Outcome) (w : World)
    (h : (refreshZohoToken env refreshOut w).1 = true) :
    route rt env body refreshOut sessionOut w =
      handlerA rt env body sessionOut (refreshZohoToken env refreshOut w).2 := by
  simp [route, tokenMiddleware, h]

theorem handlerA_of_json (rt : Runtime) (env : Env) (body : ReqBody) (w : World)
    (c token : String) (hA : truthyOpt (body.get "amount") = true)
    (hS : (toStrOpt rt (body.get "amount")).isSome = true)
    (hC : body.get "currency" = some (.str c)) (hc : c ≠ "")
    (hD : truthyOpt (body.get "description") = true)
    (hT : toStrOpt rt w.ZOHO_OAUTH_TOKEN = some token) :
    ∃ p, buildBody rt (body.get "amount") (body.get "currency") (body.get "description")
        (body.get "invoice_number") (body.get "reference_number") (body.get "customer_name")
        = .ok p ∧
      ∀ out, handlerA rt env body out w =
        match out with
        | .failed m => (w.fetch (sessionRequest env token p)).send 500 (jsonObj
            [("error", some (.str "Internal server error")),
             ("details", some (.str (m (sessionRequest env token p))))])
        | .nonJson m => (w.fetch (sessionRequest env token p)).send 500 (jsonObj
            [("error", some (.str "Internal server error")), ("details", some (.str m))])
        | .json data =>
          match mapProviderResponse data (w.fetch (sessionRequest env token p)) with
          | .error e => (w.fetch (sessionRequest env token p)).send 500 (jsonObj
              [("error", some (.str "Internal server error")),
               ("details", some (.str (e.message rt)))])
          | .ok w2 => w2 := by
  obtain ⟨p, hp⟩ := buildBody_of_string rt c (body.get "amount") (body.get "description")
    (body.get "invoice_number") (body.get "reference_number") (body.get "customer_name") hS
  rw [← hC] at hp
  have hC2 : truthyOpt (body.get "currency") = true := by
    rw [hC]; exact truthy_string_currency c hc
  exact ⟨p, hp, fun out => handlerA_built rt env body out w p token hA hC2 hD hp hT⟩

theorem mapProviderResponse_calls (data : JVal) (w w2 : World)
    (h : mapProviderResponse data w = .ok w2) : w2.calls = w.calls := by
  rcases mapProviderResponse_uniform data with ⟨e, he⟩ | ⟨err, he⟩ | ⟨z, ps, _, _, _, _, he⟩
  · rw [he] at h; cases h
  · rw [he] at h; injection h with h; subst h; rfl
  · rw [he] at h; injection h with h; subst h; rfl

theorem handlerA_calls_of_valid (rt : Runtime) (env : Env) (body : ReqBody) (out : Outcome)
    (w : World) (c token : String) (hA : truthyOpt (body.get "amount") = true)
    (hS : (toStrOpt rt (body.get "amount")).isSome = true)
    (hC : body.get "currency" = some (.str c)) (hc : c ≠ "")
    (hD : truthyOpt (body.get "description") = true)
    (hT : toStrOpt rt w.ZOHO_OAUTH_TOKEN = some token) :
    ∃ p, buildBody rt (body.get "amount") (some (.str c)) (body.get "description")
        (body.get "invoice_number") (body.get "reference_number") (body.get "customer_name")
        = .ok p ∧
      (handlerA rt env body out w).calls = w.calls ++ [sessionRequest env token p] := by
  obtain ⟨p, hb, hp⟩ := handlerA_of_json rt env body w c token hA hS hC hc hD hT
  rw [hC] at hb
  refine ⟨p, hb, ?_⟩
  rw [hp]
  cases out with
  | failed m => rfl
  | nonJson m => rfl
  | json data =>
    simp only []
    cases hm : mapProviderResponse data (w.fetch (sessionRequest env token p)) with
    | error e => rfl
    | ok w2 =>
      simp only []
      rw [mapProviderResponse_calls data _ w2 hm]
      rfl

theorem buildBody_meta_data (rt : Runtime) (c : String)
    (amount description invoice_number reference_number customer_name : Option JVal) (p : JVal)
    (h : buildBody rt amount (some (.str c)) description invoice_number reference_number
      customer_name = .ok p) :
    p.field "meta_data" =
      if truthyOpt reference_number then
        some (.arr (if truthyOpt customer_name then
          [metaEntry "reference" reference_number, metaEntry "customer" customer_name]
          else [metaEntry "reference" reference_number]))
      else none := by
  unfold buildBody at h
  cases hx : parseFloat rt amount with
  | none => rw [hx] at h; cases h
  | some x =>
    rw [hx] at h
    simp only [] at h
    by_cases hr : truthyOpt reference_number = true
    · simp only [hr, if_true] at h
      injection h with h
      subst h
      cases description <;> cases invoice_number <;>
        simp [jsonObj, JVal.field, List.lookup, hr]
    · simp only [hr] at h
      injection h with h
      subst h
      cases description <;> cases invoice_number <;>
        simp [jsonObj, JVal.field, List.lookup, hr]

theorem buildBody_amount (rt : Runtime) (c : String)
    (amount description invoice_number reference_number customer_name : Option JVal) (p : JVal)
    (x : JSNum) (hx : parseFloat rt amount = some x)
    (h : buildBody rt amount (some (.str c)) description invoice_number reference_number
      customer_name = .ok p) :
    p.field "amount" = some (.str (toFixed rt x 2)) := by
  unfold buildBody at h
  rw [hx] at h
  simp only [] at h
  by_cases hr : truthyOpt reference_number = true
  · simp only [hr, if_true] at h
    injection h with h
    subst h
    simp [jsonObj, JVal.field, List.lookup]
  · simp only [hr] at h
    injection h with h
    subst h
    simp [jsonObj, JVal.field, List.lookup]

/-! ## Lemmas on the decimal rendering -/

theorem digitChar_isDigit (d : Nat) (h : d < 10) : (digitChar d).isDigit = true := by
  interval_cases d <;> rfl

theorem digitChar_value (d : Nat) (h : d < 10) : (digitChar d).toNat - 48 = d := by
  interval_cases d <;> rfl

theorem digitsValue_append (acc : Nat) (l : List Char) (ch : Char) :
    digitsValue acc (l ++ [ch]) = digitsValue acc l * 10 + (ch.toNat - 48) := by
  simp [digitsValue, List.foldl_append]

theorem digitsValue_replicate_zero (k : Nat) (l : List Char) :
    digitsValue 0 (List.replicate k '0' ++ l) = digitsValue 0 l := by
  induction k with
  | zero => rfl
  | succ k ih =>
    rw [List.replicate_succ, List.cons_append]
    exact ih

theorem decDigitsFuel_isDigit (fuel n : Nat) :
    ∀ ch ∈ decDigitsFuel fuel n, ch.isDigit = true := by
  induction fuel generalizing n with
  | zero => intro ch h; simp [decDigitsFuel] at h
  | succ fuel ih =>
    intro ch h
    unfold decDigitsFuel at h
    split_ifs at h with hn
    · simp only [List.mem_singleton] at h
      rw [h]; exact digitChar_isDigit n hn
    · rw [List.mem_append] at h
      rcases h with h | h
      · exact ih _ ch h
      · simp only [List.mem_singleton] at h
        rw [h]; exact digitChar_isDigit _ (Nat.mod_lt _ (by norm_num))

theorem decDigitsFuel_ne_nil (fuel n : Nat) : decDigitsFuel (fuel + 1) n ≠ [] := by
  unfold decDigitsFuel
  split_ifs <;> simp

theorem digitsValue_decDigitsFuel (fuel n : Nat) (h : n < fuel) :
    digitsValue 0 (decDigitsFuel fuel n) = n := by
  induction fuel generalizing n with
  | zero => omega
  | succ fuel ih =>
    unfold decDigitsFuel
    split_ifs with hn
    · simp only [digitsValue, List.foldl, Nat.zero_mul, Nat.zero_add]
      exact digitChar_value n hn
    · rw [digitsValue_append, ih (n / 10) (by omega),
        digitChar_value _ (Nat.mod_lt _ (by norm_num))]
      omega

theorem decDigits_isDigit (n : Nat) : ∀ ch ∈ decDigits n, ch.isDigit = true :=
  decDigitsFuel_isDigit _ _

theorem decDigits_ne_nil (n : Nat) : decDigits n ≠ [] :=
  decDigitsFuel_ne_nil _ _

theorem digitsValue_decDigits (n : Nat) : digitsValue 0 (decDigits n) = n :=
  digitsValue_decDigitsFuel _ _ (Nat.lt_succ_self n)

/-- With two fraction digits the rendering is a non-empty run of digits, a
point and two digits, and the digits read back as `n`. -/
theorem fixedDigits_two (n : Nat) :
    ∃ ip d1 d2, fixedDigits n 2 = ip ++ ['.', d1, d2] ∧ ip ≠ [] ∧
      (∀ ch ∈ ip, ch.isDigit = true) ∧ d1.isDigit = true ∧ d2.isDigit = true ∧
      digitsValue 0 (ip ++ [d1, d2]) = n := by
  -- the padded digit string
  obtain ⟨m, hm, hlen, hdig, hval⟩ : ∃ m : List Char,
      fixedDigits n 2 = m.take (m.length - 2) ++ '.' :: m.drop (m.length - 2) ∧
      3 ≤ m.length ∧ (∀ ch ∈ m, ch.isDigit = true) ∧ digitsValue 0 m = n := by
    unfold fixedDigits
    by_cases hl : (decDigits n).length ≤ 2
    · refine ⟨List.replicate (2 + 1 - (decDigits n).length) '0' ++ decDigits n, ?_, ?_, ?_, ?_⟩
      · simp [hl]
      · simp only [List.length_append, List.length_replicate]; omega
      · intro ch h
        rw [List.mem_append] at h
        rcases h with h | h
        · rw [List.eq_of_mem_replicate h]; rfl
        · exact decDigits_isDigit n ch h
      · rw [digitsValue_replicate_zero]; exact digitsValue_decDigits n
    · refine ⟨decDigits n, ?_, by omega, decDigits_isDigit n, digitsValue_decDigits n⟩
      simp [hl]
  have hdrop : (m.drop (m.length - 2)).length = 2 := by
    rw [List.length_drop]; omega
  obtain ⟨d1, d2, hd⟩ : ∃ d1 d2, m.drop (m.length - 2) = [d1, d2] := by
    match hq : m.drop (m.length - 2), hdrop with
    | [a, b], _ => exact ⟨a, b, rfl⟩
  have hsplit : m = m.take (m.length - 2) ++ [d1, d2] := by
    rw [← hd]; exact (List.take_append_drop _ _).symm
  refine ⟨m.take (m.length - 2), d1, d2, ?_, ?_, ?_, ?_, ?_, ?_⟩
  · rw [hm, hd]
  · intro h
    have := congrArg List.length h
    rw [List.length_take] at this
    simp at this
    omega
  · intro ch h; exact hdig ch (List.mem_of_mem_take h)
  · apply hdig; rw [hsplit]; simp
  · apply hdig; rw [hsplit]; simp
  · rw [← hsplit]; exact hval

theorem scaledRound_eq_floor (m : Nat) (e : Int) (f : Nat) :
    scaledRound m e f = ⌊(m : ℚ) * 2 ^ e * 10 ^ f + 1 / 2⌋₊ := by
  unfold scaledRound
  split_ifs with he
  · lift e to ℕ using he
    simp only [Int.toNat_ofNat, zpow_natCast]
    symm
    rw [Nat.floor_eq_iff (by positivity)]
    push_cast
    constructor <;> linarith
  · push_neg at he
    obtain ⟨k, hk⟩ : ∃ k : ℕ, e = -(k : ℤ) := ⟨(-e).toNat, by omega⟩
    subst hk
    simp only [neg_neg, Int.toNat_ofNat, zpow_neg, zpow_natCast]
    have h2 : (0 : ℚ) < 2 ^ k := by positivity
    have : (m : ℚ) * (2 ^ k)⁻¹ * 10 ^ f + 1 / 2 =
        ((2 * m * 10 ^ f + 2 ^ k : ℕ) : ℚ) / ((2 * 2 ^ k : ℕ) : ℚ) := by
      push_cast
      field_simp
      ring
    rw [this, Nat.floor_div_eq_div]

theorem atLeast1e21_eq_false_iff (m : Nat) (e : Int) :
    atLeast1e21 m e = false ↔ (m : ℚ) * 2 ^ e < 10 ^ 21 := by
  unfold atLeast1e21
  split_ifs with he
  · lift e to ℕ using he
    simp only [Int.toNat_ofNat, zpow_natCast, decide_eq_false_iff_not, not_le]
    constructor
    · intro h; exact_mod_cast h
    · intro h; exact_mod_cast h
  · push_neg at he
    obtain ⟨k, hk⟩ : ∃ k : ℕ, e = -(k : ℤ) := ⟨(-e).toNat, by omega⟩
    subst hk
    simp only [neg_neg, Int.toNat_ofNat, zpow_neg, zpow_natCast, decide_eq_false_iff_not, not_le]
    have h2 : (0 : ℚ) < 2 ^ k := by positivity
    rw [← div_eq_mul_inv, div_lt_iff₀ h2]
    constructor
    · intro h; exact_mod_cast h
    · intro h; exact_mod_cast h

theorem toFixed_two_of_finite (rt : Runtime) (neg : Bool) (m : Nat) (e : Int)
    (h : atLeast1e21 m e = false) :
    toFixed rt (.fin neg m e) 2 =
      (if neg && decide (m ≠ 0) then "-" else "") ++
        String.mk (fixedDigits (scaledRound m e 2) 2) := by
  simp only [toFixed, h]
  rfl

theorem refresh_token_independent (env env2 : Env) (out : Outcome) (w w2 : World)
    (h : (refreshZohoToken env out w).1 = true) :
    (refreshZohoToken env out w).2.ZOHO_OAUTH_TOKEN =
      (refreshZohoToken env2 out w2).2.ZOHO_OAUTH_TOKEN := by
  obtain ⟨data, v, ho, hf, hv⟩ := (refresh_true_iff env out w).1 h
  subst ho
  rw [refresh_true_token env w data v hf hv, refresh_true_token env2 w2 data v hf hv]

theorem isSome_toStrOpt (rt : Runtime) (v : Option JVal)
    (h : (toStrOpt rt v).isSome = true) : ∃ t, toStrOpt rt v = some t :=
  Option.isSome_iff_exists.1 h

/-! ## The claims -/

/-- C1. If the token refresh fails, the route answers 401 with the body
`{error: "Payment authentication failed - check server logs"}`, the token
request is the only outbound call (no session-creation call is attempted), and
the stored token is left as it was; this holds for every request body and
whatever the session endpoint would have answered. -/
theorem refresh_failure_answers_401 (rt : Runtime) (env : Env) (body : ReqBody)
    (refreshOut sessionOut : Outcome) (tok : Option JVal)
    (h : (refreshZohoToken env refreshOut (World.start tok)).1 = false) :
    (route rt env body refreshOut sessionOut (World.start tok)).sent =
      [⟨401, .obj [("error", .str "Payment authentication failed - check server logs")]⟩] ∧
    (route rt env body refreshOut sessionOut (World.start tok)).calls = [tokenRequest env] ∧
    (route rt env body refreshOut sessionOut (World.start tok)).ZOHO_OAUTH_TOKEN = tok := by
  have hc := refresh_trace env refreshOut (World.start tok)
  have ht := refresh_false_token env refreshOut (World.start tok) h
  simp [route, tokenMiddleware, h, World.send, jsonObj, hc.1, hc.2, ht]
  simp [World.start]

/-- C1, the three ways a refresh fails, each at a concrete input: the token
endpoint is unreachable, its body is not JSON, its body is JSON without an
`access_token`. -/
theorem refresh_failure_answers_401_witness :
    (refreshZohoToken sampleEnv (.failed (fetchErrorMessage "connect ECONNREFUSED")) (World.start none)).1 = false ∧
    (refreshZohoToken sampleEnv (.nonJson "Unexpected token <") (World.start none)).1 = false ∧
    (refreshZohoToken sampleEnv (.json (.obj [("error", .str "invalid_code")]))
      (World.start none)).1 = false ∧
    (route asciiRuntime sampleEnv plainOrder (.json (.obj [("error", .str "invalid_code")]))
        (.json (sessionCreated (.fin false 0 0) "abc123")) (World.start none)).sent =
      [⟨401, .obj [("error", .str "Payment authentication failed - check server logs")]⟩] :=
  ⟨rfl, rfl, rfl,
   (refresh_failure_answers_401 asciiRuntime sampleEnv plainOrder
      (.json (.obj [("error", .str "invalid_code")]))
      (.json (sessionCreated (.fin false 0 0) "abc123")) none rfl).1⟩

/-- C2. If `amount`, `currency` or `description` is missing from the request
body, the first handler answers 400 with a JSON body that carries an `error`
field and issues no outbound call; on the whole route the token request is
then the only outbound call. -/
theorem missing_field_answers_400 (rt : Runtime) (env : Env) (body : ReqBody)
    (sessionOut : Outcome) (w : World)
    (h : body.get "amount" = none ∨ body.get "currency" = none ∨
      body.get "description" = none) :
    (handlerA rt env body sessionOut w).sent = w.sent ++ [⟨400, .obj [("error",
        .str "Missing required fields: amount, currency, or description")]⟩] ∧
    (handlerA rt env body sessionOut w).calls = w.calls ∧
    ∀ (refreshOut : Outcome) (tok : Option JVal),
      (route rt env body refreshOut sessionOut (World.start tok)).calls = [tokenRequest env] := by
  have hm : ∀ w2 : World, handlerA rt env body sessionOut w2 = w2.send 400 (jsonObj [("error",
      some (.str "Missing required fields: amount, currency, or description"))]) := by
    intro w2
    apply handlerA_missing
    rcases h with h | h | h
    · exact Or.inl (by rw [h]; rfl)
    · exact Or.inr (Or.inl (by rw [h]; rfl))
    · exact Or.inr (Or.inr (by rw [h]; rfl))
  refine ⟨by rw [hm]; simp [World.send, jsonObj], by rw [hm]; simp [World.send], ?_⟩
  intro refreshOut tok
  have hc : (refreshZohoToken env refreshOut (World.start tok)).2.calls = [tokenRequest env] := by
    rw [(refresh_trace env refreshOut (World.start tok)).1]; rfl
  cases hr : (refreshZohoToken env refreshOut (World.start tok)).1 with
  | false =>
    rw [route_of_refresh_false rt env body refreshOut sessionOut _ hr]
    simp [World.send, hc]
  | true =>
    rw [route_of_refresh_true rt env body refreshOut sessionOut _ hr, hm]
    simp [World.send, hc]

/-- C2 at the body `{amount: "10", description: "order 7"}`, which has no
`currency`. -/
theorem missing_field_answers_400_witness :
    (ReqBody.object [("amount", .str "10"), ("description", .str "order 7")]).get "currency"
      = none ∧
    (handlerA asciiRuntime sampleEnv
        (.object [("amount", .str "10"), ("description", .str "order 7")])
        (.json (sessionCreated (.fin false 0 0) "abc123")) (World.start none)).sent =
      [⟨400, .obj [("error",
        .str "Missing required fields: amount, currency, or description")]⟩] ∧
    (handlerA asciiRuntime sampleEnv
        (.object [("amount", .str "10"), ("description", .str "order 7")])
        (.json (sessionCreated (.fin false 0 0) "abc123")) (World.start none)).calls = [] :=
  ⟨rfl,
   (missing_field_answers_400 asciiRuntime sampleEnv
      (.object [("amount", .str "10"), ("description", .str "order 7")])
      (.json (sessionCreated (.fin false 0 0) "abc123")) (World.start none)
      (Or.inr (Or.inl rfl))).1,
   (missing_field_answers_400 asciiRuntime sampleEnv
      (.object [("amount", .str "10"), ("description", .str "order 7")])
      (.json (sessionCreated (.fin false 0 0) "abc123")) (World.start none)
      (Or.inr (Or.inl rfl))).2.1⟩

/-- C7, as stated, fails: the token endpoint answers with the JSON body
`{access_token: ""}`, which contains an `access_token` field, and
`refreshZohoToken` returns failure and keeps the old token. -/
theorem refresh_rejects_empty_access_token :
    (JVal.obj [("access_token", .str "")]).field "access_token" = some (.str "") ∧
    (refreshZohoToken sampleEnv (.json (.obj [("access_token", .str "")]))
      (World.start (some (.str "old-token")))).1 = false ∧
    (refreshZohoToken sampleEnv (.json (.obj [("access_token", .str "")]))
      (World.start (some (.str "old-token")))).2.ZOHO_OAUTH_TOKEN = some (.str "old-token") :=
  ⟨rfl, rfl, rfl⟩

/-- C7, amended. `refreshZohoToken` returns success exactly when the token
endpoint's response is a JSON body whose `access_token` field is truthy (not
`null`, `false`, `0`, NaN or the empty string), and then the stored access
token is that value; in every other case it returns failure (it returns a
boolean in all cases, so nothing is thrown) and leaves the stored access token
unchanged. Either way it issues exactly the token request and writes no
response. -/
theorem refresh_succeeds_iff_truthy_access_token (env : Env) (out : Outcome) (w : World) :
    ((refreshZohoToken env out w).1 = true ↔
      ∃ data v, out = .json data ∧ data.field "access_token" = some v ∧ truthy v = true) ∧
    (∀ data v, out = .json data → data.field "access_token" = some v → truthy v = true →
      (refreshZohoToken env out w).2.ZOHO_OAUTH_TOKEN = some v) ∧
    ((refreshZohoToken env out w).1 = false →
      (refreshZohoToken env out w).2.ZOHO_OAUTH_TOKEN = w.ZOHO_OAUTH_TOKEN) ∧
    (refreshZohoToken env out w).2.calls = w.calls ++ [tokenRequest env] ∧
    (refreshZohoToken env out w).2.sent = w.sent := by
  refine ⟨refresh_true_iff env out w, ?_, refresh_false_token env out w,
    (refresh_trace env out w).1, (refresh_trace env out w).2⟩
  intro data v ho hf hv
  subst ho
  exact refresh_true_token env w data v hf hv

/-- C9, as stated, fails: the response is not a function of the request and
the provider's responses alone. Two runs on the same request body, with the
same answer of the token endpoint and the same failure of the session call,
in environments that differ in `ZOHO_ACCOUNT_ID` only, write different
responses: the `details` of the 500 is the fetch error's message, which names
the request URL, and the URL carries the account id. -/
theorem account_id_reaches_the_caller :
    (route asciiRuntime sampleEnv plainOrder tokenGranted
      (.failed (fetchErrorMessage "connect ECONNREFUSED")) (World.start none)).sent.map
        (fun r => (r.status, detailsText r)) =
      [(500, "request to https://payments.zoho.in/api/v1/paymentsessions?account_id=60001" ++
        " failed, reason: connect ECONNREFUSED")] ∧
    (route asciiRuntime otherAccountEnv plainOrder tokenGranted
      (.failed (fetchErrorMessage "connect ECONNREFUSED")) (World.start none)).sent.map
        (fun r => (r.status, detailsText r)) =
      [(500, "request to https://payments.zoho.in/api/v1/paymentsessions?account_id=999" ++
        " failed, reason: connect ECONNREFUSED")] ∧
    (route asciiRuntime sampleEnv plainOrder tokenGranted
      (.failed (fetchErrorMessage "connect ECONNREFUSED")) (World.start none)).sent ≠
    (route asciiRuntime otherAccountEnv plainOrder tokenGranted
      (.failed (fetchErrorMessage "connect ECONNREFUSED")) (World.start none)).sent := by
  refine ⟨rfl, rfl, fun h => ?_⟩
  have h2 := congrArg (List.map detailsText) h
  have h3 : (["request to https://payments.zoho.in/api/v1/paymentsessions?account_id=60001" ++
      " failed, reason: connect ECONNREFUSED"] : List String) =
      ["request to https://payments.zoho.in/api/v1/paymentsessions?account_id=999" ++
      " failed, reason: connect ECONNREFUSED"] := h2
  revert h3
  decide

/-- C9, amended. Two runs of the route on the same request body, with the same
outcomes of the two outbound calls and the same account id, write the same
responses, whatever the refresh token, the client id, the client secret, the
API key and the stored access token are in each run: the response is a
function of the request, the account id and the outcomes of the outbound
calls only. And the first handler leaves the stored access token as it found
it. -/
theorem response_independent_of_credentials (rt : Runtime) (env env2 : Env)
    (tok tok2 : Option JVal) (body : ReqBody) (refreshOut sessionOut : Outcome)
    (hacct : env.ZOHO_ACCOUNT_ID = env2.ZOHO_ACCOUNT_ID) :
    (route rt env body refreshOut sessionOut (World.start tok)).sent =
      (route rt env2 body refreshOut sessionOut (World.start tok2)).sent ∧
    ∀ w : World, (handlerA rt env body sessionOut w).ZOHO_OAUTH_TOKEN = w.ZOHO_OAUTH_TOKEN := by
  constructor
  · have hi := refresh_ok_independent env env2 refreshOut (World.start tok) (World.start tok2)
    have hs1 : (refreshZohoToken env refreshOut (World.start tok)).2.sent = [] := by
      rw [(refresh_trace env refreshOut (World.start tok)).2]; rfl
    have hs2 : (refreshZohoToken env2 refreshOut (World.start tok2)).2.sent = [] := by
      rw [(refresh_trace env2 refreshOut (World.start tok2)).2]; rfl
    cases h2 : (refreshZohoToken env2 refreshOut (World.start tok2)).1 with
    | false =>
      rw [h2] at hi
      rw [route_of_refresh_false rt env body refreshOut sessionOut _ hi,
        route_of_refresh_false rt env2 body refreshOut sessionOut _ h2]
      simp [World.send, hs1, hs2]
    | true =>
      rw [h2] at hi
      rw [route_of_refresh_true rt env body refreshOut sessionOut _ hi,
        route_of_refresh_true rt env2 body refreshOut sessionOut _ h2]
      obtain ⟨r, _, _, _, hr⟩ := handlerA_uniform rt body sessionOut
        (refreshZohoToken env refreshOut (World.start tok)).2.ZOHO_OAUTH_TOKEN
        env.ZOHO_ACCOUNT_ID
      obtain ⟨cs1, e1, _⟩ := hr env (refreshZohoToken env refreshOut (World.start tok)).2 rfl rfl
      obtain ⟨cs2, e2, _⟩ := hr env2 (refreshZohoToken env2 refreshOut (World.start tok2)).2
        (refresh_token_independent env env2 refreshOut _ _ hi).symm hacct.symm
      rw [e1, e2]
      simp [hs1, hs2]
  · intro w
    obtain ⟨r, _, _, _, hr⟩ := handlerA_uniform rt body sessionOut w.ZOHO_OAUTH_TOKEN
      env.ZOHO_ACCOUNT_ID
    obtain ⟨cs, e, _⟩ := hr env w rfl rfl
    rw [e]

/-- C9, amended, at two runs that differ in the refresh token, the client id,
the client secret, the API key and the stored access token, and whose session
call fails: both write the same 500. -/
theorem response_independent_of_credentials_witness :
    sampleEnv.ZOHO_ACCOUNT_ID = rotatedEnv.ZOHO_ACCOUNT_ID ∧
    ((route asciiRuntime sampleEnv plainOrder tokenGranted
        (.failed (fetchErrorMessage "connect ECONNREFUSED"))
        (World.start (some (.str "stale-token-1")))).sent =
      (route asciiRuntime rotatedEnv plainOrder tokenGranted
        (.failed (fetchErrorMessage "connect ECONNREFUSED"))
        (World.start (some (.str "stale-token-2")))).sent ∧
    ∀ w : World, (handlerA asciiRuntime sampleEnv plainOrder
        (.failed (fetchErrorMessage "connect ECONNREFUSED")) w).ZOHO_OAUTH_TOKEN =
      w.ZOHO_OAUTH_TOKEN) :=
  ⟨rfl,
   response_independent_of_credentials asciiRuntime sampleEnv rotatedEnv
     (some (.str "stale-token-1")) (some (.str "stale-token-2")) plainOrder tokenGranted
     (.failed (fetchErrorMessage "connect ECONNREFUSED")) rfl⟩

/-- C8. Whatever the request body and the outcomes of the two outbound calls,
the route writes exactly one response (it is a total function: every exception
raised on the way is caught and answered); its status is 200, 400, 401 or 500;
every response other than 200 is a JSON body with an `error` field; and when
the session call was issued and failed or came back with a body that is not
JSON, the response is 500 with the error `Internal server error`. -/
theorem route_answers_exactly_once (rt : Runtime) (env : Env) (body : ReqBody)
    (refreshOut sessionOut : Outcome) (tok : Option JVal) :
    ∃ r : Response,
      (route rt env body refreshOut sessionOut (World.start tok)).sent = [r] ∧
      (r.status = 200 ∨ r.status = 400 ∨ r.status = 401 ∨ r.status = 500) ∧
      (r.status ≠ 200 → ∃ e, r.body.field "error" = some e) ∧
      ((∃ u a p, Outbound.sessionRequest u a p ∈
          (route rt env body refreshOut sessionOut (World.start tok)).calls) →
        ((∃ m, sessionOut = .failed m) ∨ (∃ m, sessionOut = .nonJson m)) →
        r.status = 500 ∧ r.body.field "error" = some (.str "Internal server error")) := by
  have hc : (refreshZohoToken env refreshOut (World.start tok)).2.calls = [tokenRequest env] := by
    rw [(refresh_trace env refreshOut (World.start tok)).1]; rfl
  have hs : (refreshZohoToken env refreshOut (World.start tok)).2.sent = [] := by
    rw [(refresh_trace env refreshOut (World.start tok)).2]; rfl
  cases hr : (refreshZohoToken env refreshOut (World.start tok)).1 with
  | false =>
    rw [route_of_refresh_false rt env body refreshOut sessionOut _ hr]
    refine ⟨⟨401, jsonObj [("error",
      some (.str "Payment authentication failed - check server logs"))]⟩, ?_, by simp, ?_, ?_⟩
    · simp [World.send, hs]
    · intro _; exact ⟨_, rfl⟩
    · rintro ⟨u, a, p, hmem⟩ _
      simp [World.send, hc, tokenRequest] at hmem
  | true =>
    rw [route_of_refresh_true rt env body refreshOut sessionOut _ hr]
    obtain ⟨r, hst, herr, _, hu⟩ := handlerA_uniform rt body sessionOut
      (refreshZohoToken env refreshOut (World.start tok)).2.ZOHO_OAUTH_TOKEN env.ZOHO_ACCOUNT_ID
    obtain ⟨cs, e, hcs, h500⟩ :=
      hu env (refreshZohoToken env refreshOut (World.start tok)).2 rfl rfl
    rw [e]
    refine ⟨r, by simp [hs], ?_, herr, ?_⟩
    · rcases hst with h | h | h
      · exact Or.inl h
      · exact Or.inr (Or.inl h)
      · exact Or.inr (Or.inr (Or.inr h))
    · rintro ⟨u, a, p, hmem⟩ hout
      apply h500 _ hout
      rintro rfl
      simp [hc, tokenRequest] at hmem

/-- C8 at a concrete run: the session endpoint cannot be reached. -/
theorem route_answers_500_on_network_failure :
    (route asciiRuntime sampleEnv plainOrder tokenGranted (.failed (fetchErrorMessage "connect ETIMEDOUT"))
      (World.start none)).sent =
      [⟨500, .obj [("error", .str "Internal server error"),
        ("details", .str ("request to https://payments.zoho.in/api/v1/paymentsessions" ++
          "?account_id=60001 failed, reason: connect ETIMEDOUT"))]⟩] :=
  rfl

/-- C6, as stated, fails: the provider answers
`{code: 0, payments_session: {payments_session_id: 42}}` and the route answers
200 with `{payments_session_id: 42}`, where `42` is a number; the provider
answers `{code: 0, payments_session: {}}` and the route answers 200 with the
empty object. -/
theorem ok_response_without_string_id :
    (route asciiRuntime sampleEnv plainOrder tokenGranted (.json numericSessionId)
      (World.start none)).sent =
      [⟨200, .obj [("payments_session_id", .num (.fin false 42 0))]⟩] ∧
    (route asciiRuntime sampleEnv plainOrder tokenGranted (.json emptySession)
      (World.start none)).sent = [⟨200, .obj []⟩] :=
  ⟨rfl, rfl⟩

/-- C6, amended. If the route answers 200, then the session endpoint returned
a JSON value whose `code` is the number zero and whose `payments_session` is
neither missing nor `null`, and the body of the response is
`{payments_session_id: v}` with `v` whatever value the provider gave in
`payments_session.payments_session_id` (the property is left out when the
provider gave none); in particular the body is `{payments_session_id: s}` when
that value is the string `s`. -/
theorem ok_response_carries_provider_id (rt : Runtime) (env : Env) (body : ReqBody)
    (refreshOut sessionOut : Outcome) (tok : Option JVal) (r : Response)
    (hr : r ∈ (route rt env body refreshOut sessionOut (World.start tok)).sent)
    (h200 : r.status = 200) :
    ∃ data z ps, sessionOut = .json data ∧ data.field "code" = some (.num z) ∧
      z.isZero = true ∧ data.field "payments_session" = some ps ∧ ps ≠ .null ∧
      r.body = jsonObj [("payments_session_id", ps.field "payments_session_id")] ∧
      ∀ s, ps.field "payments_session_id" = some (.str s) →
        r.body = .obj [("payments_session_id", .str s)] := by
  have hs : (refreshZohoToken env refreshOut (World.start tok)).2.sent = [] := by
    rw [(refresh_trace env refreshOut (World.start tok)).2]; rfl
  cases hrf : (refreshZohoToken env refreshOut (World.start tok)).1 with
  | false =>
    rw [route_of_refresh_false rt env body refreshOut sessionOut _ hrf] at hr
    simp [World.send, hs] at hr
    rw [hr] at h200
    simp at h200
  | true =>
    rw [route_of_refresh_true rt env body refreshOut sessionOut _ hrf] at hr
    obtain ⟨r0, _, _, hok, hu⟩ := handlerA_uniform rt body sessionOut
      (refreshZohoToken env refreshOut (World.start tok)).2.ZOHO_OAUTH_TOKEN env.ZOHO_ACCOUNT_ID
    obtain ⟨cs, e, _, _⟩ := hu env (refreshZohoToken env refreshOut (World.start tok)).2 rfl rfl
    rw [e] at hr
    simp [hs] at hr
    subst hr
    obtain ⟨data, z, ps, h1, h2, h3, h4, h5, h6⟩ := hok h200
    refine ⟨data, z, ps, h1, h2, h3, h4, h5, h6, ?_⟩
    intro s hsid
    rw [h6, hsid]
    rfl

/-- C6, amended, at the provider answer
`{code: 0, payments_session: {payments_session_id: "abc123"}}`. -/
theorem ok_response_carries_provider_id_witness :
    ∃ data z ps, Outcome.json (sessionCreated (.fin false 0 0) "abc123") = .json data ∧
      data.field "code" = some (.num z) ∧
      z.isZero = true ∧ data.field "payments_session" = some ps ∧ ps ≠ .null ∧
      (⟨200, .obj [("payments_session_id", .str "abc123")]⟩ : Response).body =
        jsonObj [("payments_session_id", ps.field "payments_session_id")] ∧
      ∀ s, ps.field "payments_session_id" = some (.str s) →
        (⟨200, .obj [("payments_session_id", .str "abc123")]⟩ : Response).body =
          .obj [("payments_session_id", .str s)] :=
  ok_response_carries_provider_id asciiRuntime sampleEnv plainOrder tokenGranted
    (.json (sessionCreated (.fin false 0 0) "abc123")) none
    ⟨200, .obj [("payments_session_id", .str "abc123")]⟩
    (List.mem_singleton.2 rfl) rfl

/-- C3, as stated, fails: in the body
`{amount: "10", currency: 356, description: "order 7"}` the three fields are
present and pass the handler's check, the refresh succeeds, the provider would
answer `{code: 0, payments_session: {payments_session_id: "abc123"}}`, and the
route answers 500, because `currency.toUpperCase()` throws on a number; the
session endpoint is never called. -/
theorem numeric_currency_answers_500 :
    numericCurrencyOrder.get "amount" = some (.str "10") ∧
    numericCurrencyOrder.get "currency" = some (.num (.fin false 356 0)) ∧
    numericCurrencyOrder.get "description" = some (.str "order 7") ∧
    (refreshZohoToken sampleEnv tokenGranted (World.start none)).1 = true ∧
    (route asciiRuntime sampleEnv numericCurrencyOrder tokenGranted
      (.json (sessionCreated (.fin false 0 0) "abc123")) (World.start none)).sent.map
        (fun r => (r.status, r.body.field "error")) =
      [(500, some (.str "Internal server error"))] ∧
    (route asciiRuntime sampleEnv numericCurrencyOrder tokenGranted
      (.json (sessionCreated (.fin false 0 0) "abc123")) (World.start none)).calls =
      [tokenRequest sampleEnv] :=
  ⟨rfl, rfl, rfl, rfl, rfl, rfl⟩

/-- C3, amended. For every request whose `amount` and `description` are truthy
and whose `currency` is a non-empty string, when the refresh succeeded, and
the amount and the refreshed access token can be converted to strings (every
string, number and boolean can), and for every session identifier string `s`:
if the provider's response is the JSON
`{code: 0, payments_session: {payments_session_id: s}}`, the response to the
caller is 200 with body exactly `{payments_session_id: s}`. -/
theorem session_created_answers_200 (rt : Runtime) (env : Env) (body : ReqBody)
    (refreshOut : Outcome) (tok : Option JVal) (c s : String) (zero : JSNum)
    (hA : truthyOpt (body.get "amount") = true)
    (hS : (toStrOpt rt (body.get "amount")).isSome = true)
    (hC : body.get "currency" = some (.str c)) (hc : c ≠ "")
    (hD : truthyOpt (body.get "description") = true)
    (hR : (refreshZohoToken env refreshOut (World.start tok)).1 = true)
    (hT : (toStrOpt rt
      (refreshZohoToken env refreshOut (World.start tok)).2.ZOHO_OAUTH_TOKEN).isSome = true)
    (hz : zero.isZero = true) :
    (route rt env body refreshOut (.json (sessionCreated zero s)) (World.start tok)).sent =
      [⟨200, .obj [("payments_session_id", .str s)]⟩] := by
  have hs : (refreshZohoToken env refreshOut (World.start tok)).2.sent = [] := by
    rw [(refresh_trace env refreshOut (World.start tok)).2]; rfl
  rw [route_of_refresh_true rt env body refreshOut _ _ hR]
  obtain ⟨token, hT2⟩ := isSome_toStrOpt rt _ hT
  obtain ⟨p, _, hp⟩ := handlerA_of_json rt env body
    (refreshZohoToken env refreshOut (World.start tok)).2 c token hA hS hC hc hD hT2
  rw [hp]
  simp only []
  rw [mapProviderResponse_zero _ _ (by simp [sessionCreated])
    (by simp [sessionCreated, JVal.field, List.lookup, strictNeZero, hz])]
  simp [sessionCreated, JVal.field, List.lookup, getPropOpt, getProp, World.send, World.fetch,
    hs, jsonObj]

/-- C3, amended, at the request `{amount: "10", currency: "inr", description:
"order 7"}` and the session identifier `abc123`. -/
theorem session_created_answers_200_witness :
    truthyOpt (plainOrder.get "amount") = true ∧
    (toStrOpt asciiRuntime (plainOrder.get "amount")).isSome = true ∧
    plainOrder.get "currency" = some (.str "inr") ∧
    truthyOpt (plainOrder.get "description") = true ∧
    (refreshZohoToken sampleEnv tokenGranted (World.start none)).1 = true ∧
    (toStrOpt asciiRuntime
      (refreshZohoToken sampleEnv tokenGranted (World.start none)).2.ZOHO_OAUTH_TOKEN).isSome
      = true ∧
    (route asciiRuntime sampleEnv plainOrder tokenGranted
      (.json (sessionCreated (.fin false 0 0) "abc123")) (World.start none)).sent =
      [⟨200, .obj [("payments_session_id", .str "abc123")]⟩] :=
  ⟨rfl, rfl, rfl, rfl, rfl, rfl,
   session_created_answers_200 asciiRuntime sampleEnv plainOrder tokenGranted none "inr"
     "abc123" (.fin false 0 0) rfl rfl rfl (by decide) rfl rfl rfl rfl⟩

/-- C4, as stated, fails: in the body
`{amount: "10", currency: 356, description: "order 7"}` the three fields are
present and pass the handler's check, the refresh succeeds, the provider would
answer `{code: 1, message: "invalid amount"}`, and the route answers 500 with
the error `Internal server error` instead of 400 with the provider's message. -/
theorem numeric_currency_hides_provider_message :
    truthyOpt (numericCurrencyOrder.get "amount") = true ∧
    truthyOpt (numericCurrencyOrder.get "currency") = true ∧
    truthyOpt (numericCurrencyOrder.get "description") = true ∧
    (refreshZohoToken sampleEnv tokenGranted (World.start none)).1 = true ∧
    invalidAmount.field "code" = some (.num (.fin false 1 0)) ∧
    (route asciiRuntime sampleEnv numericCurrencyOrder tokenGranted (.json invalidAmount)
      (World.start none)).sent.map (fun r => (r.status, r.body.field "error")) =
      [(500, some (.str "Internal server error"))] :=
  ⟨rfl, rfl, rfl, rfl, rfl, rfl⟩

/-- C4, amended. For every request whose `amount` and `description` are truthy
and whose `currency` is a non-empty string, when the refresh succeeded, and
the amount and the refreshed access token can be converted to strings (every
string, number and boolean can), and for every provider JSON response other
than `null` whose `code` is not the number zero: the response to the caller is
400, its `error` field is the provider's `message` when that is truthy and
the fixed text `Payment session creation failed` when the provider gives no
message (or a falsy one), and its `details` field is the provider's response
unchanged. -/
theorem provider_rejection_answers_400 (rt : Runtime) (env : Env) (body : ReqBody)
    (refreshOut : Outcome) (tok : Option JVal) (c : String) (data : JVal)
    (hA : truthyOpt (body.get "amount") = true)
    (hS : (toStrOpt rt (body.get "amount")).isSome = true)
    (hC : body.get "currency" = some (.str c)) (hc : c ≠ "")
    (hD : truthyOpt (body.get "description") = true)
    (hR : (refreshZohoToken env refreshOut (World.start tok)).1 = true)
    (hT : (toStrOpt rt
      (refreshZohoToken env refreshOut (World.start tok)).2.ZOHO_OAUTH_TOKEN).isSome = true)
    (hn : data ≠ .null) (hcode : strictNeZero (data.field "code") = true) :
    ∃ err, (route rt env body refreshOut (.json data) (World.start tok)).sent =
        [⟨400, .obj [("error", err), ("details", data)]⟩] ∧
      (∀ m, data.field "message" = some m → truthy m = true → err = m) ∧
      (truthyOpt (data.field "message") = false →
        err = .str "Payment session creation failed") := by
  have hs : (refreshZohoToken env refreshOut (World.start tok)).2.sent = [] := by
    rw [(refresh_trace env refreshOut (World.start tok)).2]; rfl
  rw [route_of_refresh_true rt env body refreshOut _ _ hR]
  obtain ⟨token, hT2⟩ := isSome_toStrOpt rt _ hT
  obtain ⟨p, _, hp⟩ := handlerA_of_json rt env body
    (refreshZohoToken env refreshOut (World.start tok)).2 c token hA hS hC hc hD hT2
  rw [hp]
  simp only []
  rw [mapProviderResponse_nonzero _ _ hn hcode]
  cases hm : data.field "message" with
  | none =>
    refine ⟨.str "Payment session creation failed", ?_, ?_, fun _ => rfl⟩
    · simp [truthyOpt, World.send, World.fetch, hs, jsonObj]
    · intro m h; cases h
  | some mv =>
    by_cases ht : truthy mv = true
    · refine ⟨mv, ?_, ?_, ?_⟩
      · simp [truthyOpt, ht, World.send, World.fetch, hs, jsonObj]
      · intro m h _; exact Option.some.inj h
      · intro h; simp [truthyOpt, ht] at h
    · refine ⟨.str "Payment session creation failed", ?_, ?_, fun _ => rfl⟩
      · simp [truthyOpt, ht, World.send, World.fetch, hs, jsonObj]
      · intro m h hm2; rw [← Option.some.inj h] at hm2; exact absurd hm2 ht

/-- C4, amended, at the provider answer `{code: 1, message: "invalid amount"}`:
the error is `invalid amount`. -/
theorem provider_rejection_answers_400_witness :
    strictNeZero (invalidAmount.field "code") = true ∧
    ∃ err, (route asciiRuntime sampleEnv plainOrder tokenGranted (.json invalidAmount)
        (World.start none)).sent = [⟨400, .obj [("error", err), ("details", invalidAmount)]⟩] ∧
      (∀ m, invalidAmount.field "message" = some m → truthy m = true → err = m) ∧
      (truthyOpt (invalidAmount.field "message") = false →
        err = .str "Payment session creation failed") :=
  ⟨rfl,
   provider_rejection_answers_400 asciiRuntime sampleEnv plainOrder tokenGranted none "inr"
     invalidAmount rfl rfl rfl (by decide) rfl rfl rfl (by simp [invalidAmount]) rfl⟩

/-- C10, as stated, fails: the body `{amount: "10", currency: "inr",
description: "order 7", customer_name: "Bob"}` passes validation and has a
`customer_name`, and the outbound session payload carries no metadata list at
all, hence no `customer` entry. -/
theorem customer_name_alone_gives_no_meta_data :
    truthyOpt (namedOrder.get "customer_name") = true ∧
    (route asciiRuntime sampleEnv namedOrder tokenGranted
      (.json (sessionCreated (.fin false 0 0) "abc123")) (World.start none)).calls =
      [tokenRequest sampleEnv,
       .sessionRequest "https://payments.zoho.in/api/v1/paymentsessions?account_id=60001"
         "Zoho-oauthtoken fresh-token"
         (.obj [("amount", .str "10.00"), ("currency", .str "INR"),
           ("description", .str "order 7")])] ∧
    (JVal.obj [("amount", .str "10.00"), ("currency", .str "INR"),
      ("description", .str "order 7")]).field "meta_data" = none :=
  ⟨rfl, rfl, rfl⟩

/-- C10, amended. For every request whose `amount` and `description` are
truthy and whose `currency` is a non-empty string, the amount and the stored
access token being convertible to strings (every string, number and boolean
is), the first handler issues one session call, and its payload carries a
metadata list exactly when `reference_number` is truthy: the list is then the
`reference` entry holding `reference_number`, followed by a `customer` entry
holding `customer_name` when `customer_name` is truthy too; when
`reference_number` is missing or falsy the payload carries no metadata list,
whatever `customer_name` is. -/
theorem meta_data_follows_reference_number (rt : Runtime) (env : Env) (body : ReqBody)
    (out : Outcome) (w : World) (c : String)
    (hA : truthyOpt (body.get "amount") = true)
    (hS : (toStrOpt rt (body.get "amount")).isSome = true)
    (hC : body.get "currency" = some (.str c)) (hc : c ≠ "")
    (hD : truthyOpt (body.get "description") = true)
    (hT : (toStrOpt rt w.ZOHO_OAUTH_TOKEN).isSome = true) :
    ∃ token p, toStrOpt rt w.ZOHO_OAUTH_TOKEN = some token ∧
      (handlerA rt env body out w).calls = w.calls ++ [sessionRequest env token p] ∧
      (∀ ref, body.get "reference_number" = some ref → truthy ref = true →
        (∀ name, body.get "customer_name" = some name → truthy name = true →
          p.field "meta_data" = some (.arr
            [.obj [("key", .str "reference"), ("value", ref)],
             .obj [("key", .str "customer"), ("value", name)]])) ∧
        (truthyOpt (body.get "customer_name") = false →
          p.field "meta_data" = some (.arr
            [.obj [("key", .str "reference"), ("value", ref)]]))) ∧
      (truthyOpt (body.get "reference_number") = false → p.field "meta_data" = none) := by
  obtain ⟨token, hT2⟩ := isSome_toStrOpt rt _ hT
  obtain ⟨p, hb, hcalls⟩ := handlerA_calls_of_valid rt env body out w c token hA hS hC hc hD hT2
  have hm := buildBody_meta_data rt c _ _ _ _ _ p hb
  refine ⟨token, p, hT2, hcalls, ?_, ?_⟩
  · intro ref href htr
    have h1 : truthyOpt (body.get "reference_number") = true := by rw [href]; exact htr
    constructor
    · intro name hname htn
      have h2 : truthyOpt (body.get "customer_name") = true := by rw [hname]; exact htn
      rw [hm, if_pos h1, if_pos h2, href, hname]
      rfl
    · intro h2
      rw [hm, if_pos h1, if_neg (by simp [h2]), href]
      rfl
  · intro h1
    rw [hm]
    simp [h1]

/-- C10, amended, at the body `{amount: "10", currency: "inr", description:
"order 7", reference_number: "R-1", customer_name: "Bob"}`. -/
theorem meta_data_follows_reference_number_witness :
    truthyOpt (referencedOrder.get "amount") = true ∧
    referencedOrder.get "currency" = some (.str "inr") ∧
    truthyOpt (referencedOrder.get "description") = true ∧
    (∃ token p, toStrOpt asciiRuntime (World.start none).ZOHO_OAUTH_TOKEN = some token ∧
      (handlerA asciiRuntime sampleEnv referencedOrder (.failed (fetchErrorMessage "connect ETIMEDOUT"))
          (World.start none)).calls =
        (World.start none).calls ++ [sessionRequest sampleEnv token p] ∧
      (∀ ref, referencedOrder.get "reference_number" = some ref → truthy ref = true →
        (∀ name, referencedOrder.get "customer_name" = some name → truthy name = true →
          p.field "meta_data" = some (.arr
            [.obj [("key", .str "reference"), ("value", ref)],
             .obj [("key", .str "customer"), ("value", name)]])) ∧
        (truthyOpt (referencedOrder.get "customer_name") = false →
          p.field "meta_data" = some (.arr
            [.obj [("key", .str "reference"), ("value", ref)]]))) ∧
      (truthyOpt (referencedOrder.get "reference_number") = false →
        p.field "meta_data" = none)) ∧
    (handlerA asciiRuntime sampleEnv referencedOrder (.failed (fetchErrorMessage "connect ETIMEDOUT"))
        (World.start none)).calls =
      [.sessionRequest "https://payments.zoho.in/api/v1/paymentsessions?account_id=60001"
         "Zoho-oauthtoken undefined"
         (.obj [("amount", .str "10.00"), ("currency", .str "INR"),
           ("description", .str "order 7"),
           ("meta_data", .arr [.obj [("key", .str "reference"), ("value", .str "R-1")],
             .obj [("key", .str "customer"), ("value", .str "Bob")]])])] :=
  ⟨rfl, rfl, rfl,
   meta_data_follows_reference_number asciiRuntime sampleEnv referencedOrder
     (.failed (fetchErrorMessage "connect ETIMEDOUT")) (World.start none) "inr" rfl rfl rfl (by decide) rfl rfl,
   rfl⟩

/-- C5, as stated, fails: the body `{amount: "abc", currency: "inr",
description: "order 7"}` passes validation, `parseFloat("abc")` is NaN, and the
amount carried in the outbound session payload is the text `NaN`, which has no
decimal point and no digits. -/
theorem word_amount_is_sent_as_NaN :
    truthyOpt (wordAmountOrder.get "amount") = true ∧
    truthyOpt (wordAmountOrder.get "currency") = true ∧
    truthyOpt (wordAmountOrder.get "description") = true ∧
    (route asciiRuntime sampleEnv wordAmountOrder tokenGranted
      (.json (sessionCreated (.fin false 0 0) "abc123")) (World.start none)).calls =
      [tokenRequest sampleEnv,
       .sessionRequest "https://payments.zoho.in/api/v1/paymentsessions?account_id=60001"
         "Zoho-oauthtoken fresh-token"
         (.obj [("amount", .str "NaN"), ("currency", .str "INR"),
           ("description", .str "order 7")])] :=
  ⟨rfl, rfl, rfl, rfl⟩

/-- C5, amended. For every request whose `amount` and `description` are truthy
and whose `currency` is a non-empty string, the stored access token being
convertible to a string, if `parseFloat(amount)` is a finite number
`x = (-1)^neg * m * 2^e` of magnitude below `10^21`, the first handler
issues one session call, and the amount in its payload is a decimal string
with exactly two digits after the decimal point: a minus sign when `x < 0`, at
least one digit, a point and two digits, the digits being those of the integer
nearest to `100 * |x|` (the larger one on a tie). -/
theorem amount_has_two_decimals (rt : Runtime) (env : Env) (body : ReqBody) (out : Outcome)
    (w : World) (c : String) (neg : Bool) (m : Nat) (e : Int)
    (hA : truthyOpt (body.get "amount") = true)
    (hC : body.get "currency" = some (.str c)) (hc : c ≠ "")
    (hD : truthyOpt (body.get "description") = true)
    (hT : (toStrOpt rt w.ZOHO_OAUTH_TOKEN).isSome = true)
    (hx : parseFloat rt (body.get "amount") = some (.fin neg m e))
    (hlt : (m : ℚ) * 2 ^ e < 10 ^ 21) :
    ∃ token p ip d1 d2, toStrOpt rt w.ZOHO_OAUTH_TOKEN = some token ∧
      (handlerA rt env body out w).calls = w.calls ++ [sessionRequest env token p] ∧
      p.field "amount" = some (.str ((if neg && decide (m ≠ 0) then "-" else "") ++
        String.mk (ip ++ ['.', d1, d2]))) ∧
      ip ≠ [] ∧ (∀ ch ∈ ip, ch.isDigit = true) ∧ d1.isDigit = true ∧ d2.isDigit = true ∧
      digitsValue 0 (ip ++ [d1, d2]) = ⌊(m : ℚ) * 2 ^ e * 100 + 1 / 2⌋₊ := by
  obtain ⟨token, hT2⟩ := isSome_toStrOpt rt _ hT
  have hS : (toStrOpt rt (body.get "amount")).isSome = true := by
    unfold parseFloat at hx
    cases h : toStrOpt rt (body.get "amount") with
    | none => rw [h] at hx; cases hx
    | some _ => rfl
  obtain ⟨p, hb, hcalls⟩ := handlerA_calls_of_valid rt env body out w c token hA hS hC hc hD hT2
  have ha := buildBody_amount rt c _ _ _ _ _ p _ hx hb
  rw [toFixed_two_of_finite rt neg m e ((atLeast1e21_eq_false_iff m e).2 hlt)] at ha
  obtain ⟨ip, d1, d2, hfd, h1, h2, h3, h4, h5⟩ := fixedDigits_two (scaledRound m e 2)
  refine ⟨token, p, ip, d1, d2, hT2, hcalls, ?_, h1, h2, h3, h4, ?_⟩
  · rw [ha, hfd]
  · rw [h5, scaledRound_eq_floor]
    norm_num

/-- C5, amended, at the amount `"10"`: `parseFloat` gives
`5629499534213120 * 2^(-49) = 10` and the payload carries `"10.00"`. -/
theorem amount_has_two_decimals_witness :
    parseFloat asciiRuntime (plainOrder.get "amount") =
      some (.fin false 5629499534213120 (-49)) ∧
    (5629499534213120 : ℚ) * 2 ^ (-49 : ℤ) < 10 ^ 21 ∧
    (∃ token p ip d1 d2,
      toStrOpt asciiRuntime (World.start none).ZOHO_OAUTH_TOKEN = some token ∧
      (handlerA asciiRuntime sampleEnv plainOrder (.failed (fetchErrorMessage "connect ETIMEDOUT")) (World.start none)).calls =
        (World.start none).calls ++ [sessionRequest sampleEnv token p] ∧
      p.field "amount" = some (.str ((if false && decide (5629499534213120 ≠ 0) then "-" else "")
        ++ String.mk (ip ++ ['.', d1, d2]))) ∧
      ip ≠ [] ∧ (∀ ch ∈ ip, ch.isDigit = true) ∧ d1.isDigit = true ∧ d2.isDigit = true ∧
      digitsValue 0 (ip ++ [d1, d2]) =
        ⌊((5629499534213120 : ℕ) : ℚ) * 2 ^ (-49 : ℤ) * 100 + 1 / 2⌋₊) ∧
    (handlerA asciiRuntime sampleEnv plainOrder (.failed (fetchErrorMessage "connect ETIMEDOUT")) (World.start none)).calls =
      [.sessionRequest "https://payments.zoho.in/api/v1/paymentsessions?account_id=60001"
         "Zoho-oauthtoken undefined"
         (.obj [("amount", .str "10.00"), ("currency", .str "INR"),
           ("description", .str "order 7")])] :=
  ⟨rfl, by norm_num,
   amount_has_two_decimals asciiRuntime sampleEnv plainOrder (.failed (fetchErrorMessage "connect ETIMEDOUT"))
     (World.start none) "inr" false 5629499534213120 (-49) rfl rfl (by decide) rfl rfl rfl
     (by norm_num),
   rfl⟩

/-- A request whose amount is the object `{toString: 1}` passes the handler's
check, but `parseFloat` cannot convert it to a string: the route answers 500
and the session endpoint is not called. -/
theorem unprintable_amount_answers_500 :
    (route asciiRuntime sampleEnv
      (.object [("amount", .obj [("toString", .num (.fin false 1 0))]),
        ("currency", .str "inr"), ("description", .str "order 7")])
      tokenGranted (.json (sessionCreated (.fin false 0 0) "abc123")) (World.start none)).sent.map
        (fun r => (r.status, r.body.field "error")) =
      [(500, some (.str "Internal server error"))] ∧
    (route asciiRuntime sampleEnv
      (.object [("amount", .obj [("toString", .num (.fin false 1 0))]),
        ("currency", .str "inr"), ("description", .str "order 7")])
      tokenGranted (.json (sessionCreated (.fin false 0 0) "abc123")) (World.start none)).calls =
      [tokenRequest sampleEnv] :=
  ⟨rfl, rfl⟩

end OuthServer
